import Mathlib

/-!
# rtik: humanoid IK animation nodes

A shallow embedding of the three animation nodes of the repository

* `Source/ue4ik/IK/AnimNode_HumanoidPelvisHeightAdjustment.cpp`
* `Source/ue4ik/IK/AnimNode_HumanoidArmTorsoAdjust.cpp`
* `Source/ue4ik/IK/AnimNode_RangeLimitedFabrik.cpp`

Scalars (`float` in the source) are elements of a linearly ordered field `F`,
so every definition runs on `ℚ`; the transcendental routines of the engine
(`FMath::InvSqrt`, `FMath::Tan`, ...) are collected in the record `FMath`,
which the caller supplies.  Nullable pointers are `Option`s, `TArray`s are
lists, and a failed `check` or an out-of-range array access makes an
evaluation return `none`.
-/

namespace RTIK

/-! ## Engine primitives -/

/-- Scalar routines of the engine's `FMath` used by the nodes.  They are not
part of the repository; the nodes are parametric in them. -/
structure FMath (F : Type) where
  Sqrt : F → F
  InvSqrt : F → F
  Tan : F → F
  Atan : F → F
  Acos : F → F
  Sin : F → F
  Cos : F → F
  PI : F

/-- The engine's `FVector`: three scalar components. -/
structure FVector (F : Type) where
  X : F
  Y : F
  Z : F
deriving DecidableEq, Repr

/-- The engine's `FQuat`. -/
structure FQuat (F : Type) where
  X : F
  Y : F
  Z : F
  W : F
deriving DecidableEq, Repr

/-- The engine's `FTransform`: rotation, translation and scale. -/
structure FTransform (F : Type) where
  Rotation : FQuat F
  Translation : FVector F
  Scale3D : FVector F
deriving DecidableEq, Repr

/-- An entry of `OutBoneTransforms`: `FBoneTransform(BoneIndex, Transform)`. -/
structure FBoneTransform (F : Type) where
  BoneIndex : Int
  Transform : FTransform F
deriving DecidableEq, Repr

section Primitives

variable {F : Type} [LinearOrderedField F]

/-- The constant `KINDA_SMALL_NUMBER` (1.e-4f). -/
def KINDA_SMALL_NUMBER : F := 1 / 10000

/-- The constant `THRESH_VECTOR_NORMALIZED` (0.01f). -/
def THRESH_VECTOR_NORMALIZED : F := 1 / 100

/-- The function `FMath::DegreesToRadians`. -/
def FMath.DegreesToRadians (M : FMath F) (Deg : F) : F := Deg * (M.PI / 180)

/-- The function `FMath::RadiansToDegrees`. -/
def FMath.RadiansToDegrees (M : FMath F) (Rad : F) : F := Rad * (180 / M.PI)

namespace FVector

/-- The constant `FVector::ZeroVector`. -/
def ZeroVector : FVector F := ⟨0, 0, 0⟩

/-- Component-wise sum, `operator+`. -/
def add (a b : FVector F) : FVector F := ⟨a.X + b.X, a.Y + b.Y, a.Z + b.Z⟩

/-- Component-wise difference, `operator-`. -/
def sub (a b : FVector F) : FVector F := ⟨a.X - b.X, a.Y - b.Y, a.Z - b.Z⟩

/-- Scaling by a scalar, `operator*(float)`. -/
def scale (a : FVector F) (s : F) : FVector F := ⟨a.X * s, a.Y * s, a.Z * s⟩

/-- Unary minus, `operator-()`. -/
def neg (a : FVector F) : FVector F := ⟨-a.X, -a.Y, -a.Z⟩

instance : Add (FVector F) := ⟨add⟩

instance : Sub (FVector F) := ⟨sub⟩

instance : Neg (FVector F) := ⟨neg⟩

/-- The function `FVector::DotProduct`, `operator|`. -/
def DotProduct (a b : FVector F) : F := a.X * b.X + a.Y * b.Y + a.Z * b.Z

/-- The function `FVector::CrossProduct`, `operator^`. -/
def CrossProduct (a b : FVector F) : FVector F :=
  ⟨a.Y * b.Z - a.Z * b.Y, a.Z * b.X - a.X * b.Z, a.X * b.Y - a.Y * b.X⟩

/-- The function `FVector::SizeSquared`. -/
def SizeSquared (a : FVector F) : F := a.X * a.X + a.Y * a.Y + a.Z * a.Z

/-- The function `FVector::Size`. -/
def Size (M : FMath F) (a : FVector F) : F := M.Sqrt a.SizeSquared

/-- The function `FVector::GetClampedToMaxSize`: the zero vector for a tiny
bound, the vector rescaled to length `MaxSize` when it is longer, the vector
itself otherwise. -/
def GetClampedToMaxSize (M : FMath F) (a : FVector F) (MaxSize : F) : FVector F :=
  if MaxSize < KINDA_SMALL_NUMBER then ZeroVector
  else
    let VSq := a.SizeSquared
    if VSq > MaxSize * MaxSize then
      let Scale := MaxSize * M.InvSqrt VSq
      ⟨a.X * Scale, a.Y * Scale, a.Z * Scale⟩
    else a

/-- The function `FVector::ProjectOnTo`: `A * ((this | A) / (A | A))`. -/
def ProjectOnTo (a A : FVector F) : FVector F :=
  A.scale (DotProduct a A / DotProduct A A)

/-- The function `FVector::GetUnsafeNormal`: scaling by `InvSqrt(SizeSquared)`
without a zero-length test. -/
def GetUnsafeNormal (M : FMath F) (a : FVector F) : FVector F :=
  a.scale (M.InvSqrt a.SizeSquared)

/-- The function `FVector::IsNormalized`. -/
def IsNormalized (a : FVector F) : Bool :=
  decide (|1 - a.SizeSquared| < THRESH_VECTOR_NORMALIZED)

end FVector

namespace FQuat

/-- The constant `FQuat::Identity`. -/
def Identity : FQuat F := ⟨0, 0, 0, 1⟩

end FQuat

namespace FTransform

/-- The constructor `FTransform(const FVector& InTranslation)`: identity
rotation, the given translation, unit scale. -/
def ofTranslation (v : FVector F) : FTransform F := ⟨FQuat.Identity, v, ⟨1, 1, 1⟩⟩

/-- The accessor `FTransform::GetLocation`. -/
def GetLocation (t : FTransform F) : FVector F := t.Translation

/-- The mutator `FTransform::SetLocation`. -/
def SetLocation (t : FTransform F) (v : FVector F) : FTransform F :=
  { t with Translation := v }

/-- The accessor `FTransform::GetRotation`. -/
def GetRotation (t : FTransform F) : FQuat F := t.Rotation

/-- The mutator `FTransform::SetRotation`. -/
def SetRotation (t : FTransform F) (q : FQuat F) : FTransform F :=
  { t with Rotation := q }

end FTransform

end Primitives

/-! ## Pelvis height adjustment node -/

/-- The trace result of one foot, `TraceData.FootHitResult`: the hit actor
(`GetActor()`, `none` for `nullptr`) and the world-space impact point. -/
structure FHitResult (F : Type) where
  Actor : Option Nat
  ImpactPoint : FVector F

/-- A leg wrapper as the pelvis node reads it: `Chain.ShinBone.BoneIndex`. -/
structure HumanoidLegChain where
  ShinBoneIndex : Int

/-- A bone wrapper as the pelvis node reads it: `Bone.BoneIndex`. -/
structure IKBoneWrapper where
  BoneIndex : Int

/-- What the pelvis node reads from the host during one evaluation: the owner
cast to `ACharacter` (`none` when the cast fails), the world-to-component map
`ToCS.TransformPosition`, and the pose lookups `FAnimUtil::GetBoneCSLocation`
and `FAnimUtil::GetBoneCSTransform`. -/
structure PelvisHost (F : Type) where
  Character : Option Nat
  ToCS : FVector F → FVector F
  GetBoneCSLocation : Int → FVector F
  GetBoneCSTransform : Int → FTransform F

/-- The node `FAnimNode_HumanoidPelvisHeightAdjustment`: input pins,
configuration and the state carried from frame to frame. -/
structure FAnimNode_HumanoidPelvisHeightAdjustment (F : Type) where
  LeftLeg : Option HumanoidLegChain
  RightLeg : Option HumanoidLegChain
  PelvisBone : Option IKBoneWrapper
  LeftLegTraceData : Option (FHitResult F)
  RightLegTraceData : Option (FHitResult F)
  MaxPelvisAdjustSize : F
  PelvisAdjustVelocity : F
  DeltaTime : F
  LastPelvisOffset : FVector F

/-- The local variables of one pelvis evaluation that reached the smoothing
step (lines 61-113 of the source). -/
structure PelvisLocals (F : Type) where
  bReturnToCenter : Bool
  TargetPelvisDelta : F
  PelvisTargetCS : FVector F
  PreviousPelvisLoc : FVector F
  PelvisAdjustVec : FVector F
  NewPelvisLoc : FVector F

/-- The outcome of one pelvis evaluation: the node afterwards, the contents of
`OutBoneTransforms`, and the locals when the smoothing step was reached. -/
structure PelvisEval (F : Type) where
  Node : FAnimNode_HumanoidPelvisHeightAdjustment F
  OutBoneTransforms : List (FBoneTransform F)
  Locals : Option (PelvisLocals F)

namespace FAnimNode_HumanoidPelvisHeightAdjustment

variable {F : Type} [LinearOrderedField F]

/-- The method `UpdateInternal`: stores the frame's delta time. -/
def UpdateInternal (node : FAnimNode_HumanoidPelvisHeightAdjustment F) (dt : F) :
    FAnimNode_HumanoidPelvisHeightAdjustment F :=
  { node with DeltaTime := dt }

/-- Lines 72-92: the pelvis delta chosen from the two feet, before the
comparison with `MaxPelvisAdjustSize`. -/
def RawTargetPelvisDelta (host : PelvisHost F) (LeftLeg RightLeg : HumanoidLegChain)
    (LeftHit RightHit : FHitResult F) : F :=
  let LeftFootFloor := LeftHit.ImpactPoint
  let RightFootFloor := RightHit.ImpactPoint
  let LeftFootFloorCS := host.ToCS LeftFootFloor
  let RightFootFloorCS := host.ToCS RightFootFloor
  let RootPosition := host.GetBoneCSLocation 0
  let LeftFootCS := host.GetBoneCSLocation LeftLeg.ShinBoneIndex
  let RightFootCS := host.GetBoneCSLocation RightLeg.ShinBoneIndex
  let LeftTargetDelta := LeftFootCS.Z - RootPosition.Z
  let RightTargetDelta := RightFootCS.Z - RootPosition.Z
  let LeftTargetHeight := LeftFootFloorCS.Z + LeftTargetDelta
  let RightTargetHeight := RightFootFloorCS.Z + RightTargetDelta
  if LeftTargetHeight < RightTargetHeight then LeftTargetHeight - LeftFootCS.Z
  else RightTargetHeight - RightFootCS.Z

/-- Lines 61-100: the pair `(bReturnToCenter, TargetPelvisDelta)` handed to
the smoothing step. -/
def TargetPelvisDelta (node : FAnimNode_HumanoidPelvisHeightAdjustment F)
    (host : PelvisHost F) (LeftLeg RightLeg : HumanoidLegChain)
    (LeftHit RightHit : FHitResult F) : Bool × F :=
  if LeftHit.Actor = none ∨ RightHit.Actor = none then (true, 0)
  else
    let Delta := RawTargetPelvisDelta host LeftLeg RightLeg LeftHit RightHit
    if Delta > node.MaxPelvisAdjustSize then (true, 0) else (false, Delta)

/-- The method `EvaluateSkeletalControl_AnyThread` of the pelvis node.  The
argument `Out` is `OutBoneTransforms` on entry; the `check` that it is empty
fails with `none`.  Each early `return` leaves node and output untouched. -/
def EvaluateSkeletalControl_AnyThread (M : FMath F)
    (node : FAnimNode_HumanoidPelvisHeightAdjustment F) (host : PelvisHost F)
    (Out : List (FBoneTransform F)) : Option (PelvisEval F) :=
  if Out.length ≠ 0 then none
  else
    match node.LeftLeg, node.RightLeg, node.PelvisBone with
    | some LeftLeg, some RightLeg, some PelvisBone =>
      match node.LeftLegTraceData, node.RightLegTraceData with
      | some LeftHit, some RightHit =>
        match host.Character with
        | none => some ⟨node, Out, none⟩
        | some _ =>
          let r := TargetPelvisDelta node host LeftLeg RightLeg LeftHit RightHit
          let TargetPelvisDeltaVec : FVector F := ⟨0, 0, r.2⟩
          let PelvisTransformCS := host.GetBoneCSTransform PelvisBone.BoneIndex
          let PelvisTargetCS := PelvisTransformCS.GetLocation + TargetPelvisDeltaVec
          let PreviousPelvisLoc := PelvisTransformCS.GetLocation + node.LastPelvisOffset
          let PelvisAdjustVec := (PelvisTargetCS - PreviousPelvisLoc).GetClampedToMaxSize M
            (node.PelvisAdjustVelocity * node.DeltaTime)
          let NewPelvisLoc := PelvisTransformCS.GetLocation + PelvisAdjustVec
          some ⟨{ node with LastPelvisOffset := PelvisAdjustVec },
            Out ++ [⟨PelvisBone.BoneIndex, PelvisTransformCS.SetLocation NewPelvisLoc⟩],
            some ⟨r.1, r.2, PelvisTargetCS, PreviousPelvisLoc, PelvisAdjustVec, NewPelvisLoc⟩⟩
      | _, _ => some ⟨node, Out, none⟩
    | _, _, _ => some ⟨node, Out, none⟩

end FAnimNode_HumanoidPelvisHeightAdjustment

/-- The input of one animation update of the pelvis node as the host presents
it: the delta time of `UpdateInternal`, what the two trace-data pins hold in
that frame, and the pose and component data read during evaluation. -/
structure PelvisFrame (F : Type) where
  DeltaTime : F
  LeftLegTraceData : Option (FHitResult F)
  RightLegTraceData : Option (FHitResult F)
  Host : PelvisHost F

/-- One animation update of the pelvis node: the pins are refreshed,
`UpdateInternal` stores the delta time, then the node is evaluated with an
empty `OutBoneTransforms`. -/
def PelvisRunFrame {F : Type} [LinearOrderedField F] (M : FMath F)
    (node : FAnimNode_HumanoidPelvisHeightAdjustment F) (frame : PelvisFrame F) :
    Option (PelvisEval F) :=
  FAnimNode_HumanoidPelvisHeightAdjustment.EvaluateSkeletalControl_AnyThread M
    (FAnimNode_HumanoidPelvisHeightAdjustment.UpdateInternal
      { node with LeftLegTraceData := frame.LeftLegTraceData,
                  RightLegTraceData := frame.RightLegTraceData } frame.DeltaTime)
    frame.Host []

/-- A sequence of animation updates; the node after each frame is the node
the next frame starts from. -/
def PelvisRunFrames {F : Type} [LinearOrderedField F] (M : FMath F) :
    FAnimNode_HumanoidPelvisHeightAdjustment F → List (PelvisFrame F) →
    Option (FAnimNode_HumanoidPelvisHeightAdjustment F)
  | node, [] => some node
  | node, frame :: rest =>
    match PelvisRunFrame M node frame with
    | none => none
    | some r => PelvisRunFrames M r.Node rest

/-! ## Chains, constraints and the solver interface -/

/-- Build switches of the plugin that change what the nodes do. -/
structure BuildConfig where
  WITH_EDITOR : Bool
  ENABLE_IK_DEBUG : Bool

/-- A chain link `FIKBone` as the nodes read it: the compact pose index of its
bone and the (nullable) constraint attached to it, which `GetConstraint()`
returns. -/
structure FIKBone (C : Type) where
  BoneIndex : Int
  Constraint : Option C

/-- Modelled from the spec: the chain type is declared in `IK/IK.h`, which is
not among the sources.  By the spec a chain is the ordered sequence of its
links, root to effector; `Num()` counts them and `operator[]` indexes them. -/
structure FIKModChain (C : Type) where
  BonesRootToEffector : List (FIKBone C)

/-- The method `Num()` of a chain. -/
def FIKModChain.Num {C : Type} (chain : FIKModChain C) : Nat :=
  chain.BonesRootToEffector.length

/-- The indexing `Chain[i]`; `none` when the index is out of range. -/
def FIKModChain.get? {C : Type} (chain : FIKModChain C) (i : Nat) : Option (FIKBone C) :=
  chain.BonesRootToEffector[i]?

/-- A chain wrapper object (`IKChain`, `Arm`): the chain and the answer of its
`IsValid(RequiredBones)`. -/
structure IKChainWrapper (C R : Type) where
  Chain : FIKModChain C
  IsValid : R → Bool

/-- The arguments of one call of
`FRangeLimitedFABRIK::SolveRangeLimitedFABRIK`; `K` is the type of the entries
of the constraint array. -/
structure SolverCall (F K : Type) where
  InCSTransforms : List (FTransform F)
  Constraints : List K
  EffectorTargetLocationCS : FVector F
  Precision : F
  MaxIterations : Int
  Character : Option Nat

/-- The solver `FRangeLimitedFABRIK::SolveRangeLimitedFABRIK` as the nodes see
it: from the arguments to the returned flag and the contents of
`OutCSTransforms`.  Its body is in `IK/RangeLimitedFABRIK.cpp`, not among the
sources; the nodes are parametric in it. -/
abbrev Solver (F K : Type) := SolverCall F K → Bool × List (FTransform F)

/-- A counted loop `for (i = 0; i < n; ++i) Result.Add(f(i))`, where a failing
body (an out-of-range access) fails the loop. -/
def forRange {α : Type} (f : Nat → Option α) : Nat → Option (List α)
  | 0 => some []
  | n + 1 =>
    match forRange f n with
    | none => none
    | some xs =>
      match f n with
      | none => none
      | some x => some (xs ++ [x])

/-- Indexing a `TArray` with an `int32`: `none` outside the array. -/
def TArrayGet? {α : Type} (xs : List α) (i : Int) : Option α :=
  if i < 0 then none else xs[i.toNat]?

/-- The setup callback stored in a planar constraint: either the one its
constructor installs, or the lambda the torso node attaches to the twist
constraint. -/
inductive FSetupFn where
  | Constructed
  | TorsoTwistLambda
deriving DecidableEq, Repr

/-- The constraint `FPlanarRotation` with the members the nodes assign. -/
structure FPlanarRotation (F : Type) where
  RotationAxis : FVector F
  ForwardDirection : FVector F
  FailsafeDirection : FVector F
  MinDegrees : F
  MaxDegrees : F
  bEnabled : Bool
  bEnableDebugDraw : Bool
  SetupFn : FSetupFn
deriving DecidableEq, Repr

/-- An entry of the torso node's constraint array: the address of one of its
two local planar constraints, or what `Bone.GetConstraint()` returned. -/
inductive TorsoConstraintPtr (F C : Type) where
  | Local (c : FPlanarRotation F)
  | Bone (c : Option C)

/-- Properties of the engine's scalar routines that the numerical statements
rely on; the routines of real analysis have them. -/
structure FMath.Sound {F : Type} [LinearOrderedField F] (M : FMath F) : Prop where
  PI_pos : 0 < M.PI
  Sqrt_nonneg : ∀ x, 0 ≤ M.Sqrt x
  Tan_nonneg : ∀ x, 0 ≤ x → x < M.PI / 2 → 0 ≤ M.Tan x
  Atan_nonneg : ∀ x, 0 ≤ x → 0 ≤ M.Atan x
  InvSqrt_sq : ∀ x, 0 < x → M.InvSqrt x * M.InvSqrt x * x = 1

/-! ## Range-limited FABRIK node -/

/-- The engine enumeration `EBoneControlSpace`. -/
inductive EBoneControlSpace where
  | BCS_WorldSpace
  | BCS_ComponentSpace
  | BCS_ParentBoneSpace
  | BCS_BoneSpace
deriving DecidableEq, Repr

/-- The engine enumeration `EBoneRotationSource`: the tip-bone rotation
policy. -/
inductive EBoneRotationSource where
  | BRS_KeepComponentSpaceRotation
  | BRS_KeepLocalSpaceRotation
  | BRS_CopyFromTarget
deriving DecidableEq, Repr

/-- What the FABRIK node reads from the host during one evaluation: the pose
lookups, the conversion `FAnimationRuntime::ConvertBoneSpaceTransformToCS`
(as a function of the transform, the bone index and the space), the lookup
`GetCompactPoseIndex` of the effector bone reference, the product of two
transforms (`operator*`), and the owner cast to `ACharacter`. -/
structure FabrikHost (F : Type) where
  GetComponentSpaceTransform : Int → FTransform F
  GetLocalSpaceTransform : Int → FTransform F
  ConvertBoneSpaceTransformToCS : FTransform F → Int → EBoneControlSpace → FTransform F
  GetCompactPoseIndex : Int → Int
  TransformMul : FTransform F → FTransform F → FTransform F
  Character : Option Nat

/-- The node `FAnimNode_RangeLimitedFabrik`. -/
structure FAnimNode_RangeLimitedFabrik (F C R : Type) where
  IKChain : Option (IKChainWrapper C R)
  EffectorTransform : FTransform F
  EffectorTransformSpace : EBoneControlSpace
  EffectorTransformBone : Int
  EffectorRotationSource : EBoneRotationSource
  Precision : F
  MaxIterations : Int
  bEnableDebugDraw : Bool
  CachedEffectorCSTransform : FTransform F

/-- The outcome of one evaluation of the FABRIK node: the node afterwards, the
contents of `OutBoneTransforms`, and the solver calls made, in order. -/
structure FabrikEval (F C R : Type) where
  Node : FAnimNode_RangeLimitedFabrik F C R
  OutBoneTransforms : List (FBoneTransform F)
  SolverCalls : List (SolverCall F (Option C))

namespace FAnimNode_RangeLimitedFabrik

variable {F C R : Type} [LinearOrderedField F]

/-- Lines 73-92: the special handling of the tip bone's rotation, applied to
`DestCSTransforms`.  Assigning to an index outside the array fails. -/
def ApplyTipRotation (node : FAnimNode_RangeLimitedFabrik F C R) (host : FabrikHost F)
    (Chain : FIKModChain C) (CSEffectorTransform : FTransform F) (NumChainLinks : Nat)
    (DestCSTransforms : List (FTransform F)) : Option (List (FTransform F)) :=
  let TipBoneIndex := NumChainLinks - 1
  match node.EffectorRotationSource with
  | .BRS_KeepLocalSpaceRotation =>
    if NumChainLinks > 1 then
      match Chain.get? TipBoneIndex, DestCSTransforms[TipBoneIndex - 1]?,
          DestCSTransforms[TipBoneIndex]? with
      | some TipBone, some Parent, some _ =>
        some (DestCSTransforms.set TipBoneIndex
          (host.TransformMul (host.GetLocalSpaceTransform TipBone.BoneIndex) Parent))
      | _, _, _ => none
    else some DestCSTransforms
  | .BRS_CopyFromTarget =>
    match DestCSTransforms[TipBoneIndex]? with
    | some Tip =>
      some (DestCSTransforms.set TipBoneIndex (Tip.SetRotation CSEffectorTransform.GetRotation))
    | none => none
  | .BRS_KeepComponentSpaceRotation => some DestCSTransforms

/-- Lines 28-34: the effector transform converted to component space. -/
def CSEffectorTransform (node : FAnimNode_RangeLimitedFabrik F C R) (host : FabrikHost F) :
    FTransform F :=
  host.ConvertBoneSpaceTransformToCS node.EffectorTransform
    (host.GetCompactPoseIndex node.EffectorTransformBone) node.EffectorTransformSpace

/-- The method `EvaluateSkeletalControl_AnyThread` of the FABRIK node.  A null
`IKChain` is dereferenced at line 40, which fails the evaluation.  The chain
has at least two links wherever `NumChainLinks - 1` and `TipBoneIndex - 1` are
formed, so the natural-number subtraction is the `int32` one. -/
def EvaluateSkeletalControl_AnyThread (cfg : BuildConfig) (solve : Solver F (Option C))
    (node : FAnimNode_RangeLimitedFabrik F C R) (host : FabrikHost F)
    (Out : List (FBoneTransform F)) : Option (FabrikEval F C R) :=
  let CSEffectorTransform := CSEffectorTransform node host
  let node1 := if cfg.WITH_EDITOR then
    { node with CachedEffectorCSTransform := CSEffectorTransform } else node
  match node.IKChain with
  | none => none
  | some IKChain =>
    let NumChainLinks := IKChain.Chain.Num
    if NumChainLinks < 2 then some ⟨node1, Out, []⟩
    else
      match forRange (fun i => (IKChain.Chain.get? i).map
              (fun b => host.GetComponentSpaceTransform b.BoneIndex)) NumChainLinks,
            forRange (fun i => (IKChain.Chain.get? i).map (fun b => b.Constraint))
              NumChainLinks with
      | some SourceCSTransforms, some Constraints =>
        let call : SolverCall F (Option C) :=
          ⟨SourceCSTransforms, Constraints, CSEffectorTransform.GetLocation,
            node.Precision, node.MaxIterations, host.Character⟩
        let bBoneLocationUpdated := (solve call).1
        match ApplyTipRotation node host IKChain.Chain CSEffectorTransform NumChainLinks
            (solve call).2 with
        | none => none
        | some DestCSTransforms =>
          if bBoneLocationUpdated then
            match forRange (fun i =>
                match IKChain.Chain.get? i, DestCSTransforms[i]? with
                | some b, some t => some (⟨b.BoneIndex, t⟩ : FBoneTransform F)
                | _, _ => none) NumChainLinks with
            | none => none
            | some Added => some ⟨node1, Out ++ Added, [call]⟩
          else some ⟨node1, Out, [call]⟩
      | _, _ => none

/-- The method `IsValidToEvaluate` of the FABRIK node. -/
def IsValidToEvaluate (node : FAnimNode_RangeLimitedFabrik F C R) (RequiredBones : R) : Bool :=
  match node.IKChain with
  | none => false
  | some IKChain =>
    if IKChain.Chain.Num < 2 then false
    else decide (node.Precision > 0) && IKChain.IsValid RequiredBones

end FAnimNode_RangeLimitedFabrik

/-! ## Humanoid arm/torso adjustment node -/

/-- A skeletal mesh socket as the torso node reads it: `GetSocketLocation`. -/
structure USkeletalMeshSocket (F : Type) where
  SocketLocation : FVector F

/-- What the torso node reads from the host during one evaluation: the
world-to-component map `ToCS.TransformPosition`, the socket lookup
`GetSocketByName` (`none` for `nullptr`), the axis lookup
`FIKUtil::GetSkeletalMeshComponentAxis`, the pose lookup, and the owner cast
to `ACharacter`. -/
structure TorsoHost (F : Type) where
  ToCS : FVector F → FVector F
  GetSocketByName : Nat → Option (USkeletalMeshSocket F)
  GetSkeletalMeshComponentAxis : Nat → FVector F
  GetComponentSpaceTransform : Int → FTransform F
  Character : Option Nat

/-- The node `FAnimNode_HumanoidArmTorsoAdjust`. -/
structure FAnimNode_HumanoidArmTorsoAdjust (F C R : Type) where
  Arm : Option (IKChainWrapper C R)
  WaistBone : FIKBone C
  TorsoPivotSocketName : Nat
  SkeletonForwardAxis : Nat
  SkeletonUpAxis : Nat
  MaxForwardBendDegrees : F
  MaxBackwardBendDegress : F
  MaxForwardTwistDegrees : F
  MaxBackwardTwistDegrees : F
  EffectorWorldTarget : FVector F
  Precision : F
  MaxIterations : Int
  bEnableDebugDraw : Bool
  DeltaTime : F

/-- The outcome of one evaluation of the torso node: the contents of
`OutBoneTransforms` and the solver calls made, in order. -/
structure TorsoEval (F C : Type) where
  OutBoneTransforms : List (FBoneTransform F)
  SolverCalls : List (SolverCall F (TorsoConstraintPtr F C))

namespace FAnimNode_HumanoidArmTorsoAdjust

variable {F C R : Type} [LinearOrderedField F]

/-- Lines 99-121: the torso pitch constraint.  `Constructed` is the value the
constructor of `FPlanarRotation` produces. -/
def TorsoPitchConstraint (M : FMath F) (Constructed : FPlanarRotation F)
    (node : FAnimNode_HumanoidArmTorsoAdjust F C R) (LeftAxis UpAxis : FVector F)
    (NeckCS PivotCS : FTransform F) (WaistCS : FVector F) : FPlanarRotation F :=
  let c := { Constructed with RotationAxis := LeftAxis.scale (-1) }
  let c := { c with ForwardDirection := UpAxis }
  let c := { c with FailsafeDirection := UpAxis }
  let ForwardBendLen := M.Tan (M.DegreesToRadians node.MaxForwardBendDegrees) *
    (NeckCS.GetLocation - WaistCS).Size M
  let ForwardBendDegreesFromPivot := M.RadiansToDegrees (M.Atan (ForwardBendLen /
    (NeckCS.GetLocation - PivotCS.GetLocation).Size M))
  let BackwardBendLen := M.Tan (M.DegreesToRadians node.MaxBackwardBendDegress) *
    (NeckCS.GetLocation - WaistCS).Size M
  let BackwardBendDegreesFromPivot := M.RadiansToDegrees (M.Atan (BackwardBendLen /
    (NeckCS.GetLocation - PivotCS.GetLocation).Size M))
  let c := { c with MinDegrees := -BackwardBendDegreesFromPivot }
  let c := { c with MaxDegrees := ForwardBendDegreesFromPivot }
  let c := { c with bEnabled := true }
  { c with bEnableDebugDraw := false }

/-- Lines 123-129 and 134: the torso twist constraint, with the setup lambda
attached. -/
def TorsoTwistConstraint (Constructed : FPlanarRotation F)
    (node : FAnimNode_HumanoidArmTorsoAdjust F C R) (LeftAxis : FVector F) :
    FPlanarRotation F :=
  let c := { Constructed with ForwardDirection := -LeftAxis }
  let c := { c with FailsafeDirection := -LeftAxis }
  let c := { c with MinDegrees := -node.MaxBackwardTwistDegrees }
  let c := { c with MaxDegrees := node.MaxForwardTwistDegrees }
  let c := { c with bEnabled := true }
  { c with SetupFn := FSetupFn.TorsoTwistLambda }

/-- Lines 134-144: the body of the setup lambda, acting on the twist
constraint it captured by reference.  It returns the constraint and the
working transforms afterwards; an index outside `CSTransforms` fails. -/
def TorsoTwistSetupFn {K : Type} (M : FMath F) (TorsoTwistConstraint : FPlanarRotation F)
    (Index : Int) (_ReferenceCSTransforms : List (FTransform F)) (_Constraints : List K)
    (CSTransforms : List (FTransform F)) : Option (FPlanarRotation F × List (FTransform F)) :=
  match TArrayGet? CSTransforms (Index - 1), TArrayGet? CSTransforms Index with
  | some Pivot, some Neck =>
    let PivotLoc := Pivot.GetLocation
    let NeckLoc := Neck.GetLocation
    some ({ TorsoTwistConstraint with
              RotationAxis := ((NeckLoc - PivotLoc).GetUnsafeNormal M).scale (-1) },
          CSTransforms)
  | _, _ => none

/-- The array accesses of one debug-draw loop of lines 176-191: for every
`i < NumBones - 1` the entries `i` and `i + 1` are read. -/
def DebugDrawChain (xs : List (FTransform F)) (NumBones : Nat) : Option Unit :=
  (forRange (fun i =>
    match xs[i]?, xs[i + 1]? with
    | some _, some _ => some ()
    | _, _ => none) (NumBones - 1)).map (fun _ => ())

/-- The method `EvaluateSkeletalControl_AnyThread` of the torso node.  The
argument `Out` is `OutBoneTransforms` on entry; the `check` that it is empty,
a null `Arm` (line 59) and an out-of-range array access fail with `none`.
Of the debug drawing only the array accesses are kept. -/
def EvaluateSkeletalControl_AnyThread (cfg : BuildConfig) (M : FMath F)
    (solve : Solver F (TorsoConstraintPtr F C)) (Constructed : FPlanarRotation F)
    (node : FAnimNode_HumanoidArmTorsoAdjust F C R) (host : TorsoHost F)
    (Out : List (FBoneTransform F)) : Option (TorsoEval F C) :=
  if Out.length ≠ 0 then none
  else
    match host.GetSocketByName node.TorsoPivotSocketName with
    | none => some ⟨Out, []⟩
    | some TorsoPivotSocket =>
      match node.Arm with
      | none => none
      | some Arm =>
        if Arm.Chain.Num < 1 then some ⟨Out, []⟩
        else
          let ForwardAxis := host.GetSkeletalMeshComponentAxis node.SkeletonForwardAxis
          let UpAxis := host.GetSkeletalMeshComponentAxis node.SkeletonUpAxis
          let LeftAxis := FVector.CrossProduct ForwardAxis UpAxis
          match Arm.Chain.get? 0 with
          | none => none
          | some Shoulder =>
            let ShoulderCS := host.GetComponentSpaceTransform Shoulder.BoneIndex
            let PivotCS := FTransform.ofTranslation (host.ToCS TorsoPivotSocket.SocketLocation)
            let NeckCS := FTransform.ofTranslation (PivotCS.GetLocation +
              (ShoulderCS.GetLocation - PivotCS.GetLocation).ProjectOnTo UpAxis)
            let NumBones := Arm.Chain.Num + 2
            let CSTransforms := ([] ++ [PivotCS] ++ [NeckCS]) ++
              Arm.Chain.BonesRootToEffector.map
                (fun Bone => host.GetComponentSpaceTransform Bone.BoneIndex)
            if cfg.ENABLE_IK_DEBUG && !LeftAxis.IsNormalized then some ⟨Out, []⟩
            else
              let WaistCS := (host.GetComponentSpaceTransform node.WaistBone.BoneIndex).GetLocation
              let TorsoPitchConstraint :=
                TorsoPitchConstraint M Constructed node LeftAxis UpAxis NeckCS PivotCS WaistCS
              let TorsoTwistConstraint := TorsoTwistConstraint Constructed node LeftAxis
              let TorsoPitchConstraint := { TorsoPitchConstraint with bEnableDebugDraw := true }
              let Constraints := ([] ++ [TorsoConstraintPtr.Local TorsoPitchConstraint] ++
                [TorsoConstraintPtr.Local TorsoTwistConstraint]) ++
                Arm.Chain.BonesRootToEffector.map
                  (fun Bone => TorsoConstraintPtr.Bone Bone.Constraint)
              let EffectorTargetCS := host.ToCS node.EffectorWorldTarget
              let call : SolverCall F (TorsoConstraintPtr F C) :=
                ⟨CSTransforms, Constraints, EffectorTargetCS, node.Precision,
                  node.MaxIterations, host.Character⟩
              let DestCSTransforms := (solve call).2
              if cfg.WITH_EDITOR && node.bEnableDebugDraw then
                match DebugDrawChain CSTransforms NumBones,
                    DebugDrawChain DestCSTransforms NumBones with
                | some _, some _ => some ⟨Out, [call]⟩
                | _, _ => none
              else some ⟨Out, [call]⟩

/-- The method `IsValidToEvaluate` of the torso node. -/
def IsValidToEvaluate (node : FAnimNode_HumanoidArmTorsoAdjust F C R) (RequiredBones : R)
    (WaistBoneIsValid : R → Bool) : Bool :=
  match node.Arm with
  | none => false
  | some Arm =>
    if !Arm.IsValid RequiredBones then false
    else if !WaistBoneIsValid RequiredBones then false
    else true

end FAnimNode_HumanoidArmTorsoAdjust

/-! ## Rotation from a direction delta -/

section Rotation

variable {F : Type} [LinearOrderedField F]

/-- The constant `SMALL_NUMBER` (1.e-8f). -/
def SMALL_NUMBER : F := 1 / 100000000

/-- The constant `THRESH_QUAT_NORMALIZED` (0.01f). -/
def THRESH_QUAT_NORMALIZED : F := 1 / 100

/-- The function `FVector::GetSafeNormal` with its default tolerance: the
vector itself when its squared length is exactly one, the zero vector when it
is below `SMALL_NUMBER`, the vector scaled by `InvSqrt` otherwise. -/
def FVector.GetSafeNormal (M : FMath F) (a : FVector F) : FVector F :=
  let SquareSum := a.X * a.X + a.Y * a.Y + a.Z * a.Z
  if SquareSum = 1 then a
  else if SquareSum < SMALL_NUMBER then FVector.ZeroVector
  else
    let Scale := M.InvSqrt SquareSum
    ⟨a.X * Scale, a.Y * Scale, a.Z * Scale⟩

namespace FQuat

/-- The constructor `FQuat(FVector Axis, float AngleRad)`. -/
def ofAxisAngle (M : FMath F) (Axis : FVector F) (AngleRad : F) : FQuat F :=
  let half_a := (1 / 2) * AngleRad
  let s := M.Sin half_a
  let c := M.Cos half_a
  ⟨s * Axis.X, s * Axis.Y, s * Axis.Z, c⟩

/-- The function `FQuat::SizeSquared`. -/
def SizeSquared (q : FQuat F) : F := q.X * q.X + q.Y * q.Y + q.Z * q.Z + q.W * q.W

/-- The function `FQuat::IsNormalized`. -/
def IsNormalized (q : FQuat F) : Bool :=
  decide (|1 - q.SizeSquared| < THRESH_QUAT_NORMALIZED)

/-- The product `operator*` of two quaternions (the Hamilton product). -/
def mul (A B : FQuat F) : FQuat F :=
  ⟨A.W * B.X + A.X * B.W + A.Y * B.Z - A.Z * B.Y,
   A.W * B.Y - A.X * B.Z + A.Y * B.W + A.Z * B.X,
   A.W * B.Z + A.X * B.Y - A.Y * B.X + A.Z * B.W,
   A.W * B.W - A.X * B.X - A.Y * B.Y - A.Z * B.Z⟩

/-- The function `FQuat::Normalize` with its default tolerance: scaling by
`InvSqrt` of the squared size, or the identity when that is below
`SMALL_NUMBER`. -/
def Normalize (M : FMath F) (q : FQuat F) : FQuat F :=
  let SquareSum := q.X * q.X + q.Y * q.Y + q.Z * q.Z + q.W * q.W
  if SquareSum ≥ SMALL_NUMBER then
    let Scale := M.InvSqrt SquareSum
    ⟨q.X * Scale, q.Y * Scale, q.Z * Scale, q.W * Scale⟩
  else FQuat.Identity

/-- The function `FQuat::RotateVector`:
`v + W * (2 (Q × v)) + Q × (2 (Q × v))` with `Q` the vector part. -/
def RotateVector (q : FQuat F) (V : FVector F) : FVector F :=
  let Q : FVector F := ⟨q.X, q.Y, q.Z⟩
  let T := (FVector.CrossProduct Q V).scale 2
  V + T.scale q.W + FVector.CrossProduct Q T

end FQuat

/-- The method `FTransform::NormalizeRotation`. -/
def FTransform.NormalizeRotation (M : FMath F) (t : FTransform F) : FTransform F :=
  { t with Rotation := t.Rotation.Normalize M }

namespace FAnimNode_RangeLimitedFabrik

/-- Lines 171-174 of `UpdateParentRotation`: the rotation built from the old
and the new parent-to-child direction. -/
def DeltaRotation (M : FMath F) (OldDir NewDir : FVector F) : FQuat F :=
  let RotationAxis := (FVector.CrossProduct OldDir NewDir).GetSafeNormal M
  let RotationAngle := M.Acos (FVector.DotProduct OldDir NewDir)
  FQuat.ofAxisAngle M RotationAxis RotationAngle

/-- The method `UpdateParentRotation`.  `Pose` is the lookup
`Pose.GetComponentSpaceTransform`; the result is `ParentTransform` afterwards
(`ChildTransform` is only read).  With `DO_GUARD_SLOW` the `checkSlow` is
compiled in and its failure is `none`. -/
def UpdateParentRotation (DO_GUARD_SLOW : Bool) (M : FMath F) (Pose : Int → FTransform F)
    (ParentTransform : FTransform F) (ParentBoneIndex : Int)
    (ChildTransform : FTransform F) (ChildBoneIndex : Int) : Option (FTransform F) :=
  let OldParentTransform := Pose ParentBoneIndex
  let OldChildTransform := Pose ChildBoneIndex
  let OldDir := (OldChildTransform.GetLocation - OldParentTransform.GetLocation).GetUnsafeNormal M
  let NewDir := (ChildTransform.GetLocation - ParentTransform.GetLocation).GetUnsafeNormal M
  let DeltaRotation := DeltaRotation M OldDir NewDir
  if DO_GUARD_SLOW && !DeltaRotation.IsNormalized then none
  else
    let ParentTransform :=
      ParentTransform.SetRotation (DeltaRotation.mul OldParentTransform.GetRotation)
    some (ParentTransform.NormalizeRotation M)

end FAnimNode_RangeLimitedFabrik

/-- Further properties of the engine's scalar routines, which the routines of
real analysis have: the inverse square root is positive, the square root
squares back, and sine and cosine lie on the unit circle. -/
structure FMath.SoundRoots (M : FMath F) : Prop where
  InvSqrt_pos : ∀ x, 0 < x → 0 < M.InvSqrt x
  Sqrt_mul_self : ∀ x, 0 ≤ x → M.Sqrt x * M.Sqrt x = x
  Sin_sq_add_Cos_sq : ∀ x, M.Sin x * M.Sin x + M.Cos x * M.Cos x = 1

/-- A pose with bone `0` at the origin and bone `1` at `(1, 0, 0)`, identity
rotations. -/
def poseEx : Int → FTransform F := fun i =>
  if i = 0 then FTransform.ofTranslation ⟨0, 0, 0⟩ else FTransform.ofTranslation ⟨1, 0, 0⟩

end Rotation

/-! ## The solver, modelled from the spec -/

/-- Modelled from the spec: the bone-constraint operations of spec 4.1, whose
code (`IK/Constraints.h`) is not among the sources.  `Setup` is the optional
pre-pass step `setup(index, referenceTransforms, allConstraints,
workingTransforms)`, which changes the constraint's own fields only;
`Enforce` bends the proposed segment direction of a link into the allowed
range; `FailsafeDirection` is the failsafe direction an enabled constraint
carries, and `none` for an entry that is null or disabled, which is
pass-through; `DegenerateSizeSquared` is the squared length at or below which
an enforced direction counts as near zero; `DeriveRotation` is the
rotation-from-direction-delta step run on the solved positions. -/
structure FIKConstraintOps (F K : Type) where
  Setup : Nat → List (FTransform F) → List K → List (FTransform F) → K → K
  Enforce : K → Nat → List (FTransform F) → List (FTransform F) → FVector F → FVector F
  FailsafeDirection : K → Option (FVector F)
  DegenerateSizeSquared : F
  DeriveRotation : Nat → List (FTransform F) → List (FTransform F) → FQuat F

/-- Modelled from the spec: the working state of one solve, the constraints
(changed by their setup steps) and the working transforms. -/
structure FABRIKState (F K : Type) where
  Constraints : List K
  CSTransforms : List (FTransform F)

section SpecSolver

variable {F K : Type} [LinearOrderedField F]

/-- What the spec says of the constraint operations: the near-zero threshold
is not negative, a failsafe direction is a unit vector (glossary), and the
setup step, which recomputes the axis and reference of a constraint, leaves
its failsafe direction alone. -/
structure FIKConstraintOps.WellFormed (P : FIKConstraintOps F K) : Prop where
  Degenerate_nonneg : 0 ≤ P.DegenerateSizeSquared
  Failsafe_unit : ∀ k f, P.FailsafeDirection k = some f → f.SizeSquared = 1
  Setup_failsafe : ∀ i Reference Constraints Working k,
    P.FailsafeDirection (P.Setup i Reference Constraints Working k) = P.FailsafeDirection k

namespace FRangeLimitedFABRIK

/-- Modelled from the spec: the segment lengths, "computed once from the input
transforms": entry `i` is the distance from link `i` to link `i + 1`. -/
def BoneLengths (M : FMath F) (T : List (FTransform F)) : List F :=
  List.zipWith (fun a b => (b.GetLocation - a.GetLocation).Size M) T T.tail

/-- Modelled from the spec: the direction along which a link is placed.  An
enabled constraint bends the proposed direction, and a near-zero result is
replaced by its failsafe direction "before normalizing"; a link without an
enabled constraint is pass-through, its proposed direction is normalised as
it is. -/
def SegmentDirection (M : FMath F) (P : FIKConstraintOps F K) (k : Option K) (Index : Nat)
    (Reference Working : List (FTransform F)) (Proposed : FVector F) : FVector F :=
  match k with
  | some c =>
    match P.FailsafeDirection c with
    | some Failsafe =>
      let Enforced := P.Enforce c Index Reference Working Proposed
      let Direction :=
        if Enforced.SizeSquared ≤ P.DegenerateSizeSquared then Failsafe else Enforced
      Direction.GetUnsafeNormal M
    | none => Proposed.GetUnsafeNormal M
  | none => Proposed.GetUnsafeNormal M

/-- Setting the location of the working transform at an index. -/
def SetLocationAt (W : List (FTransform F)) (Index : Nat) (Location : FVector F) :
    List (FTransform F) :=
  match W[Index]? with
  | some T => W.set Index (T.SetLocation Location)
  | none => W

/-- Modelled from the spec: the setup step of the constraint of a link, run
"before clamping"; it changes that constraint only. -/
def SetupLink (P : FIKConstraintOps F K) (Reference : List (FTransform F)) (Link : Nat)
    (st : FABRIKState F K) : List K :=
  match st.Constraints[Link]? with
  | some k => st.Constraints.set Link (P.Setup Link Reference st.Constraints st.CSTransforms k)
  | none => st.Constraints

/-- Modelled from the spec: one re-positioning.  The link's constraint is set
up, then the link is placed "along the segment direction at fixed segment
length" from the anchor link. -/
def PlaceLink (M : FMath F) (P : FIKConstraintOps F K) (Reference : List (FTransform F))
    (Lengths : List F) (Anchor Link Segment : Nat) (st : FABRIKState F K) : FABRIKState F K :=
  match st.CSTransforms[Anchor]?, st.CSTransforms[Link]?, Lengths[Segment]? with
  | some A, some T, some Length =>
    let Constraints := SetupLink P Reference Link st
    let Direction := SegmentDirection M P Constraints[Link]? Link Reference st.CSTransforms
      (T.GetLocation - A.GetLocation)
    ⟨Constraints, SetLocationAt st.CSTransforms Link (A.GetLocation + Direction.scale Length)⟩
  | _, _, _ => st

/-- Modelled from the spec: the walk of the backward pass over the `j` links
below link `j`, from link `j - 1` down to the root, each placed from the link
after it. -/
def BackwardWalk (M : FMath F) (P : FIKConstraintOps F K) (Reference : List (FTransform F))
    (Lengths : List F) : Nat → FABRIKState F K → FABRIKState F K
  | 0, st => st
  | j + 1, st => BackwardWalk M P Reference Lengths j
      (PlaceLink M P Reference Lengths (j + 1) j j st)

/-- Modelled from the spec: the backward pass, "starting from the effector, set
it to the target, then walk toward the root". -/
def BackwardPass (M : FMath F) (P : FIKConstraintOps F K) (Reference : List (FTransform F))
    (Lengths : List F) (Target : FVector F) (st : FABRIKState F K) : FABRIKState F K :=
  BackwardWalk M P Reference Lengths (st.CSTransforms.length - 1)
    ⟨st.Constraints, SetLocationAt st.CSTransforms (st.CSTransforms.length - 1) Target⟩

/-- Modelled from the spec: the walk of the forward pass over links `1` to `j`,
each placed from the link before it. -/
def ForwardWalk (M : FMath F) (P : FIKConstraintOps F K) (Reference : List (FTransform F))
    (Lengths : List F) : Nat → FABRIKState F K → FABRIKState F K
  | 0, st => st
  | j + 1, st => PlaceLink M P Reference Lengths j (j + 1) j
      (ForwardWalk M P Reference Lengths j st)

/-- Modelled from the spec: the forward pass, "starting from the root (restored
to its original position), walk toward the effector". -/
def ForwardPass (M : FMath F) (P : FIKConstraintOps F K) (Reference : List (FTransform F))
    (Lengths : List F) (RootLocation : FVector F) (st : FABRIKState F K) : FABRIKState F K :=
  ForwardWalk M P Reference Lengths (st.CSTransforms.length - 1)
    ⟨st.Constraints, SetLocationAt st.CSTransforms 0 RootLocation⟩

/-- The distance from the last working transform to the target. -/
def EffectorDistance (M : FMath F) (W : List (FTransform F)) (Target : FVector F) : F :=
  match W.getLast? with
  | some Effector => (Effector.GetLocation - Target).Size M
  | none => 0

/-- Modelled from the spec: the iteration, "up to `maxIterations` times or
until the effector-to-target distance ≤ precision", each round a backward
pass followed by a forward pass. -/
def Iterate (M : FMath F) (P : FIKConstraintOps F K) (Reference : List (FTransform F))
    (Lengths : List F) (RootLocation Target : FVector F) (Precision : F) :
    Nat → FABRIKState F K → FABRIKState F K
  | 0, st => st
  | fuel + 1, st =>
    if EffectorDistance M st.CSTransforms Target ≤ Precision then st
    else Iterate M P Reference Lengths RootLocation Target Precision fuel
      (ForwardPass M P Reference Lengths RootLocation
        (BackwardPass M P Reference Lengths Target st))

/-- Modelled from the spec: straightening an unreachable chain, links `1` to
`j` each placed from the link before it along the root-to-target direction. -/
def StraightenWalk (Lengths : List F) (Direction : FVector F) :
    Nat → List (FTransform F) → List (FTransform F)
  | 0, W => W
  | j + 1, W =>
    let W := StraightenWalk Lengths Direction j W
    match W[j]?, Lengths[j]? with
    | some A, some Length => SetLocationAt W (j + 1) (A.GetLocation + Direction.scale Length)
    | _, _ => W

/-- Modelled from the spec: the rotations "derived from parent→child position
deltas after the fact", for every link but the terminal one. -/
def DeriveRotations (P : FIKConstraintOps F K) (Reference Solved : List (FTransform F)) :
    List (FTransform F) :=
  Solved.mapIdx (fun i T =>
    if i + 1 < Solved.length then T.SetRotation (P.DeriveRotation i Reference Solved) else T)

/-- Modelled from the spec: the solver `SolveRangeLimitedFABRIK` of spec 4.2,
whose code (`IK/RangeLimitedFABRIK.cpp`) is not among the sources.  A chain
already within precision of the target is returned as it is with `false`; an
unreachable target (root-to-target distance at least the total reach)
straightens the chain; otherwise the passes are iterated; then the rotations
are derived and `true` is returned. -/
def SolveRangeLimitedFABRIK (M : FMath F) (P : FIKConstraintOps F K) : Solver F K :=
  fun call =>
    let In := call.InCSTransforms
    match In.head?, In.getLast? with
    | some Root, some Effector =>
      if (Effector.GetLocation - call.EffectorTargetLocationCS).Size M ≤ call.Precision then
        (false, In)
      else
        let Lengths := BoneLengths M In
        let MaximumReach := Lengths.sum
        let RootToTarget := call.EffectorTargetLocationCS - Root.GetLocation
        let Solved :=
          if RootToTarget.Size M ≥ MaximumReach then
            StraightenWalk Lengths (RootToTarget.GetUnsafeNormal M) (In.length - 1) In
          else
            (Iterate M P In Lengths Root.GetLocation call.EffectorTargetLocationCS
              call.Precision call.MaxIterations.toNat ⟨call.Constraints, In⟩).CSTransforms
        (true, DeriveRotations P In Solved)
    | _, _ => (false, In)

end FRangeLimitedFABRIK

/-- Constraint operations without constraints: nothing is set up, every entry
is pass-through (no failsafe direction), and rotations are left at the
identity. -/
def unconstrainedOps : FIKConstraintOps F K where
  Setup := fun _ _ _ _ k => k
  Enforce := fun _ _ _ _ d => d
  FailsafeDirection := fun _ => none
  DegenerateSizeSquared := 0
  DeriveRotation := fun _ _ _ => FQuat.Identity

/-- Constraint operations for nullable planar constraints that keep a link in
the `XY` plane: a non-null entry drops the `Z` component of the proposed
direction and has the failsafe direction `X`; a null entry is pass-through;
only the zero vector counts as degenerate. -/
def planarOps : FIKConstraintOps F (Option Unit) where
  Setup := fun _ _ _ _ k => k
  Enforce := fun _ _ _ _ d => ⟨d.X, d.Y, 0⟩
  FailsafeDirection := fun k => k.map (fun _ => ⟨1, 0, 0⟩)
  DegenerateSizeSquared := 0
  DeriveRotation := fun _ _ _ => FQuat.Identity

end SpecSolver

/-! ## Quantities the statements refer to, and concrete inputs -/

section Inputs

variable {F : Type} [LinearOrderedField F]

/-- Lines 85-89 for one foot: the target height
`floorContactZ + (footZ - animRootZ)`, all in component space. -/
def FootTargetHeight (host : PelvisHost F) (Leg : HumanoidLegChain) (Hit : FHitResult F) : F :=
  (host.ToCS Hit.ImpactPoint).Z +
    ((host.GetBoneCSLocation Leg.ShinBoneIndex).Z - (host.GetBoneCSLocation 0).Z)

/-- The adjustment one foot asks for: its target height minus its height. -/
def FootAdjustment (host : PelvisHost F) (Leg : HumanoidLegChain) (Hit : FHitResult F) : F :=
  FootTargetHeight host Leg Hit - (host.GetBoneCSLocation Leg.ShinBoneIndex).Z

/-- A host for the pelvis node: component space is world space, the root
bone `0` and the pelvis are at the origin, the left shin bone `1` is at height
`leftFootZ` and the right shin bone `2` at height `rightFootZ`. -/
def pelvisHostEx (leftFootZ rightFootZ : F) : PelvisHost F where
  Character := some 0
  ToCS := fun v => v
  GetBoneCSLocation := fun i =>
    if i = 1 then ⟨0, 0, leftFootZ⟩ else if i = 2 then ⟨0, 0, rightFootZ⟩ else ⟨0, 0, 0⟩
  GetBoneCSTransform := fun _ => FTransform.ofTranslation ⟨0, 0, 0⟩

/-- A foot trace that hit an actor, with the floor at height `z`. -/
def floorHit (z : F) : FHitResult F := ⟨some 7, ⟨0, 0, z⟩⟩

/-- A foot trace that hit nothing. -/
def noHit : FHitResult F := ⟨none, ⟨0, 0, 0⟩⟩

/-- A pelvis node with left shin bone `1`, right shin bone `2`, pelvis bone
`3`, `MaxPelvisAdjustSize = 10`, `PelvisAdjustVelocity = 1`, `DeltaTime = 1`,
and the given traces and last offset. -/
def pelvisNodeEx (LeftHit RightHit : FHitResult F) (Last : FVector F) :
    FAnimNode_HumanoidPelvisHeightAdjustment F where
  LeftLeg := some ⟨1⟩
  RightLeg := some ⟨2⟩
  PelvisBone := some ⟨3⟩
  LeftLegTraceData := some LeftHit
  RightLegTraceData := some RightHit
  MaxPelvisAdjustSize := 10
  PelvisAdjustVelocity := 1
  DeltaTime := 1
  LastPelvisOffset := Last

/-- A frame of one second: both feet over a floor one unit above the
animation root. -/
def pelvisFrameFloor : PelvisFrame F :=
  ⟨1, some (floorHit 1), some (floorHit 1), pelvisHostEx 0 0⟩

/-- A frame of one second in which neither foot trace hit anything. -/
def pelvisFrameNoHit : PelvisFrame F :=
  ⟨1, some noHit, some noHit, pelvisHostEx 0 0⟩

/-- Build switches of a shipping build: no editor, no IK debugging. -/
def cfgEx : BuildConfig := ⟨false, false⟩

/-- A stand-in solver: it reports a change and returns the input transforms. -/
def solveEx {K : Type} : Solver F K := fun c => (true, c.InCSTransforms)

/-- A host for the FABRIK node: bone `i` sits at `(i, 0, 0)` with identity
rotation, one unit from its parent; the effector transform is already in
component space; transforms multiply as translations do, which is the engine
product for identity rotations and unit scale. -/
def fabrikHostEx : FabrikHost F where
  GetComponentSpaceTransform := fun i => FTransform.ofTranslation ⟨(i : F), 0, 0⟩
  GetLocalSpaceTransform := fun i => FTransform.ofTranslation ⟨if i = 0 then 0 else 1, 0, 0⟩
  ConvertBoneSpaceTransformToCS := fun t _ _ => t
  GetCompactPoseIndex := fun i => i
  TransformMul := fun a b => ⟨b.Rotation, a.Translation + b.Translation, b.Scale3D⟩
  Character := some 0

/-- A FABRIK node on the given chain of unconstrained links, with the
constructor's precision 1, 10 iterations and the keep-local-rotation policy,
aiming at `(5, 0, 0)`. -/
def fabrikNodeEx (bones : List (FIKBone Unit)) : FAnimNode_RangeLimitedFabrik F Unit Unit where
  IKChain := some ⟨⟨bones⟩, fun _ => true⟩
  EffectorTransform := FTransform.ofTranslation ⟨5, 0, 0⟩
  EffectorTransformSpace := EBoneControlSpace.BCS_ComponentSpace
  EffectorTransformBone := 2
  EffectorRotationSource := EBoneRotationSource.BRS_KeepLocalSpaceRotation
  Precision := 1
  MaxIterations := 10
  bEnableDebugDraw := false
  CachedEffectorCSTransform := FTransform.ofTranslation ⟨0, 0, 0⟩

/-- A three-link chain on bones `0`, `1`, `2`, without constraints. -/
def chain3Ex : List (FIKBone Unit) := [⟨0, none⟩, ⟨1, none⟩, ⟨2, none⟩]

/-- A planar constraint as a constructor might leave it: axis `Y`, forward and
failsafe `X`, limits of 45 degrees, enabled, no setup lambda. -/
def planarEx : FPlanarRotation F :=
  ⟨⟨0, 1, 0⟩, ⟨1, 0, 0⟩, ⟨1, 0, 0⟩, -45, 45, true, false, FSetupFn.Constructed⟩

/-- A host for the torso node: component space is world space; socket `1` is
the torso pivot at `(0, 0, 1)`; axis `0` is forward `X`, axis `1` is up `Z`;
the waist bone `5` is at `(0, 0, 3/2)` and every other bone `i` at
`(0, i - 9, 2)`, so that the shoulder bone `10` is at `(0, 1, 2)`. -/
def torsoHostEx : TorsoHost F where
  ToCS := fun v => v
  GetSocketByName := fun n => if n = 1 then some ⟨⟨0, 0, 1⟩⟩ else none
  GetSkeletalMeshComponentAxis := fun a =>
    if a = 0 then ⟨1, 0, 0⟩ else if a = 1 then ⟨0, 0, 1⟩ else ⟨0, 1, 0⟩
  GetComponentSpaceTransform := fun i =>
    if i = 5 then FTransform.ofTranslation ⟨0, 0, 3 / 2⟩
    else FTransform.ofTranslation ⟨0, (i : F) - 9, 2⟩
  Character := some 0

/-- The arm of the torso example: bones `10` (shoulder) and `11`. -/
def armEx : IKChainWrapper Unit Unit := ⟨⟨[⟨10, none⟩, ⟨11, none⟩]⟩, fun _ => true⟩

/-- A torso node on the two-bone arm `10`, `11` with waist bone `5`, pivot
socket `1`, bend limits of 45 and 30 degrees and twist limits of 20 degrees. -/
def torsoNodeEx : FAnimNode_HumanoidArmTorsoAdjust F Unit Unit where
  Arm := some armEx
  WaistBone := ⟨5, none⟩
  TorsoPivotSocketName := 1
  SkeletonForwardAxis := 0
  SkeletonUpAxis := 1
  MaxForwardBendDegrees := 45
  MaxBackwardBendDegress := 30
  MaxForwardTwistDegrees := 20
  MaxBackwardTwistDegrees := 20
  EffectorWorldTarget := ⟨0, 3, 2⟩
  Precision := 1
  MaxIterations := 10
  bEnableDebugDraw := false
  DeltaTime := 0

end Inputs

/-! ## Theorems -/

section PelvisTheorems

variable {F : Type} [LinearOrderedField F]

open FAnimNode_HumanoidPelvisHeightAdjustment

theorem FVector.ext_iff3 (a b : FVector F) : a = b ↔ a.X = b.X ∧ a.Y = b.Y ∧ a.Z = b.Z := by
  cases a; cases b; simp

theorem FVector.add_def (a b : FVector F) : a + b = ⟨a.X + b.X, a.Y + b.Y, a.Z + b.Z⟩ := rfl

theorem FVector.sub_def (a b : FVector F) : a - b = ⟨a.X - b.X, a.Y - b.Y, a.Z - b.Z⟩ := rfl

theorem FVector.neg_def (a : FVector F) : -a = ⟨-a.X, -a.Y, -a.Z⟩ := rfl

/-- An evaluation of the pelvis node whose wrappers and trace inputs are
non-null and whose owner is a character reaches the smoothing step; this is
what it returns. -/
theorem pelvis_eval_reaches (M : FMath F) (node : FAnimNode_HumanoidPelvisHeightAdjustment F)
    (host : PelvisHost F) (LeftLeg RightLeg : HumanoidLegChain) (PelvisBone : IKBoneWrapper)
    (LeftHit RightHit : FHitResult F) (ch : Nat)
    (hLL : node.LeftLeg = some LeftLeg) (hRL : node.RightLeg = some RightLeg)
    (hPB : node.PelvisBone = some PelvisBone)
    (hLT : node.LeftLegTraceData = some LeftHit) (hRT : node.RightLegTraceData = some RightHit)
    (hCh : host.Character = some ch) :
    EvaluateSkeletalControl_AnyThread M node host [] =
      (let r := TargetPelvisDelta node host LeftLeg RightLeg LeftHit RightHit
       let P := (host.GetBoneCSTransform PelvisBone.BoneIndex).GetLocation
       let Adj := ((P + ⟨0, 0, r.2⟩) - (P + node.LastPelvisOffset)).GetClampedToMaxSize M
          (node.PelvisAdjustVelocity * node.DeltaTime)
       some ⟨{ node with LastPelvisOffset := Adj },
         [⟨PelvisBone.BoneIndex,
           (host.GetBoneCSTransform PelvisBone.BoneIndex).SetLocation (P + Adj)⟩],
         some ⟨r.1, r.2, P + ⟨0, 0, r.2⟩, P + node.LastPelvisOffset, Adj, P + Adj⟩⟩) := by
  simp [EvaluateSkeletalControl_AnyThread, hLL, hRL, hPB, hLT, hRT, hCh]

/-- C5. Pelvis fallback: when the left or the right foot trace has no hit
actor, an evaluation that passes the null checks reaches the smoothing step
with `bReturnToCenter` set, a target pelvis delta of `0` and a target pelvis
position equal to the unadjusted pelvis position, whatever the floor, foot
and root heights are. -/
theorem pelvis_fallback_target_zero (M : FMath F)
    (node : FAnimNode_HumanoidPelvisHeightAdjustment F) (host : PelvisHost F)
    (LeftLeg RightLeg : HumanoidLegChain) (PelvisBone : IKBoneWrapper)
    (LeftHit RightHit : FHitResult F) (ch : Nat)
    (hLL : node.LeftLeg = some LeftLeg) (hRL : node.RightLeg = some RightLeg)
    (hPB : node.PelvisBone = some PelvisBone)
    (hLT : node.LeftLegTraceData = some LeftHit) (hRT : node.RightLegTraceData = some RightHit)
    (hCh : host.Character = some ch)
    (hNoHit : LeftHit.Actor = none ∨ RightHit.Actor = none) :
    ∃ r loc, EvaluateSkeletalControl_AnyThread M node host [] = some r ∧
      r.Locals = some loc ∧ loc.bReturnToCenter = true ∧ loc.TargetPelvisDelta = 0 ∧
      loc.PelvisTargetCS = (host.GetBoneCSTransform PelvisBone.BoneIndex).GetLocation := by
  have hT : TargetPelvisDelta node host LeftLeg RightLeg LeftHit RightHit = (true, 0) := by
    simp [TargetPelvisDelta, hNoHit]
  refine ⟨_, _, pelvis_eval_reaches M node host LeftLeg RightLeg PelvisBone LeftHit RightHit ch
    hLL hRL hPB hLT hRT hCh, rfl, ?_, ?_, ?_⟩
  · simp [hT]
  · simp [hT]
  · simp [hT, FVector.ext_iff3, FVector.add_def]

/-- Witness of `pelvis_fallback_target_zero`: over the reals, with the left
trace without a hit and the right foot over a floor at height 5. -/
theorem pelvis_fallback_target_zero_witness :
    ∃ r loc, EvaluateSkeletalControl_AnyThread
        (⟨Real.sqrt, fun x => (Real.sqrt x)⁻¹, Real.tan, Real.arctan, Real.arccos,
          Real.sin, Real.cos, Real.pi⟩ : FMath ℝ)
        (pelvisNodeEx noHit (floorHit 5) ⟨0, 0, 0⟩) (pelvisHostEx 0 0) [] = some r ∧
      r.Locals = some loc ∧ loc.bReturnToCenter = true ∧ loc.TargetPelvisDelta = 0 ∧
      loc.PelvisTargetCS = ((pelvisHostEx (0 : ℝ) 0).GetBoneCSTransform 3).GetLocation :=
  pelvis_fallback_target_zero _ _ _ ⟨1⟩ ⟨2⟩ ⟨3⟩ noHit (floorHit 5) 0 rfl rfl rfl rfl rfl rfl
    (Or.inl rfl)

/-- C3, as stated, fails: with the left foot lifted 10 units over a floor at
root height and the right foot at root height under a floor 5 units up, the
left foot asks for an adjustment of 0 and the right foot for 5; the node
chooses 5, not the minimum 0, because the right target height 5 is below the
left target height 10. -/
theorem pelvis_foot_selection_not_min :
    RawTargetPelvisDelta (pelvisHostEx (10 : ℚ) 0) ⟨1⟩ ⟨2⟩ (floorHit 0) (floorHit 5) = 5 ∧
    min (FootAdjustment (pelvisHostEx (10 : ℚ) 0) ⟨1⟩ (floorHit 0))
        (FootAdjustment (pelvisHostEx (10 : ℚ) 0) ⟨2⟩ (floorHit 5)) = 0 ∧
    RawTargetPelvisDelta (pelvisHostEx (10 : ℚ) 0) ⟨1⟩ ⟨2⟩ (floorHit 0) (floorHit 5) ≠
      min (FootAdjustment (pelvisHostEx (10 : ℚ) 0) ⟨1⟩ (floorHit 0))
          (FootAdjustment (pelvisHostEx (10 : ℚ) 0) ⟨2⟩ (floorHit 5)) := by
  norm_num [RawTargetPelvisDelta, FootAdjustment, FootTargetHeight, pelvisHostEx, floorHit]

/-- C3, amended. The pelvis target delta computed before the maximum-size
check is the adjustment of the foot with the lower target height (the right
foot's when the target heights are equal); it is the minimum of the two
per-foot adjustments whenever the two feet are at the same component-space
height. -/
theorem pelvis_foot_selection_lower_target_height (host : PelvisHost F)
    (LeftLeg RightLeg : HumanoidLegChain) (LeftHit RightHit : FHitResult F) :
    RawTargetPelvisDelta host LeftLeg RightLeg LeftHit RightHit =
      (if FootTargetHeight host LeftLeg LeftHit < FootTargetHeight host RightLeg RightHit
        then FootAdjustment host LeftLeg LeftHit else FootAdjustment host RightLeg RightHit) ∧
    ((host.GetBoneCSLocation LeftLeg.ShinBoneIndex).Z =
        (host.GetBoneCSLocation RightLeg.ShinBoneIndex).Z →
      RawTargetPelvisDelta host LeftLeg RightLeg LeftHit RightHit =
        min (FootAdjustment host LeftLeg LeftHit) (FootAdjustment host RightLeg RightHit)) := by
  refine ⟨rfl, fun hz => ?_⟩
  simp only [RawTargetPelvisDelta, FootAdjustment, FootTargetHeight, hz]
  split_ifs with h
  · rw [min_eq_left]
    linarith
  · rw [min_eq_right]
    linarith

/-- Witness of `pelvis_foot_selection_lower_target_height`: both feet at root
height, floors at heights 1 and 2. -/
theorem pelvis_foot_selection_lower_target_height_witness :
    RawTargetPelvisDelta (pelvisHostEx (0 : ℚ) 0) ⟨1⟩ ⟨2⟩ (floorHit 1) (floorHit 2) =
      min (FootAdjustment (pelvisHostEx (0 : ℚ) 0) ⟨1⟩ (floorHit 1))
          (FootAdjustment (pelvisHostEx (0 : ℚ) 0) ⟨2⟩ (floorHit 2)) :=
  (pelvis_foot_selection_lower_target_height (pelvisHostEx (0 : ℚ) 0) ⟨1⟩ ⟨2⟩
    (floorHit 1) (floorHit 2)).2 (by simp [pelvisHostEx])

/-- C4, the code at a failing input. Both feet stand at root height over a
floor 100 units below the root and `MaxPelvisAdjustSize` is 10: the raw delta
is -100, of magnitude above the maximum, and the smoothing step receives
-100 with `bReturnToCenter` unset instead of 0. -/
theorem pelvis_max_adjust_misses_downward (M : FMath ℚ) :
    (pelvisNodeEx (floorHit (-100 : ℚ)) (floorHit (-100)) ⟨0, 0, 0⟩).MaxPelvisAdjustSize = 10 ∧
    RawTargetPelvisDelta (pelvisHostEx (0 : ℚ) 0) ⟨1⟩ ⟨2⟩ (floorHit (-100)) (floorHit (-100))
      = -100 ∧
    (EvaluateSkeletalControl_AnyThread M
        (pelvisNodeEx (floorHit (-100 : ℚ)) (floorHit (-100)) ⟨0, 0, 0⟩)
        (pelvisHostEx 0 0) []).bind
      (fun r => r.Locals.map (fun loc => (loc.bReturnToCenter, loc.TargetPelvisDelta)))
      = some (false, -100) := by
  refine ⟨rfl, ?_, ?_⟩
  · norm_num [RawTargetPelvisDelta, pelvisHostEx, floorHit]
  · rw [pelvis_eval_reaches M _ _ ⟨1⟩ ⟨2⟩ ⟨3⟩ (floorHit (-100)) (floorHit (-100)) 0
      rfl rfl rfl rfl rfl rfl]
    simp [TargetPelvisDelta, RawTargetPelvisDelta, pelvisHostEx, floorHit, pelvisNodeEx]
    norm_num

/-- C2, the code at a failing input. With a last offset of `(0, 0, 1)`, a
target of `(0, 0, 0)` (no hit) and `PelvisAdjustVelocity * DeltaTime = 1`, the
rate-limited update `previous + clamp(target - previous)` is `(0, 0, 0)`; the
node stores `clamp(target - previous) = (0, 0, -1)` as the new
`LastPelvisOffset` and emits the pelvis at that offset. -/
theorem pelvis_update_drops_previous_offset (M : FMath ℚ) :
    ((⟨0, 0, 1⟩ : FVector ℚ) +
        (((⟨0, 0, 0⟩ : FVector ℚ) - ⟨0, 0, 1⟩).GetClampedToMaxSize M (1 * 1))
      = ⟨0, 0, 0⟩) ∧
    (EvaluateSkeletalControl_AnyThread M (pelvisNodeEx noHit noHit (⟨0, 0, 1⟩ : FVector ℚ))
        (pelvisHostEx 0 0) []).map
      (fun r => (r.Node.LastPelvisOffset,
                 r.OutBoneTransforms.map (fun b => (b.BoneIndex, b.Transform.GetLocation))))
      = some (⟨0, 0, -1⟩, [(3, ⟨0, 0, -1⟩)]) := by
  constructor
  · norm_num [FVector.GetClampedToMaxSize, FVector.SizeSquared, FVector.sub_def,
      FVector.add_def, KINDA_SMALL_NUMBER]
  · rw [pelvis_eval_reaches M _ _ ⟨1⟩ ⟨2⟩ ⟨3⟩ noHit noHit 0 rfl rfl rfl rfl rfl rfl]
    norm_num [TargetPelvisDelta, noHit, pelvisHostEx, pelvisNodeEx, FTransform.ofTranslation,
      FTransform.GetLocation, FTransform.SetLocation, FVector.GetClampedToMaxSize,
      FVector.SizeSquared, FVector.sub_def, FVector.add_def, KINDA_SMALL_NUMBER]

/-- C1, the code at a failing sequence. From a zero offset, with
`PelvisAdjustVelocity * DeltaTime = 1` in both frames: a frame whose target is
one unit up leaves `LastPelvisOffset = (0, 0, 1)`, and a following frame without
hits leaves `(0, 0, -1)`; the offset changed by a vector of squared length 4,
above the squared bound 1. -/
theorem pelvis_offset_change_exceeds_bound (M : FMath ℚ) :
    (PelvisRunFrames M (pelvisNodeEx noHit noHit (⟨0, 0, 0⟩ : FVector ℚ))
        [pelvisFrameFloor]).map (fun n => n.LastPelvisOffset) = some ⟨0, 0, 1⟩ ∧
    (PelvisRunFrames M (pelvisNodeEx noHit noHit (⟨0, 0, 0⟩ : FVector ℚ))
        [pelvisFrameFloor, pelvisFrameNoHit]).map
      (fun n => (n.LastPelvisOffset, n.PelvisAdjustVelocity * n.DeltaTime))
      = some (⟨0, 0, -1⟩, 1) ∧
    ¬ (((⟨0, 0, -1⟩ : FVector ℚ) - ⟨0, 0, 1⟩).SizeSquared ≤ 1 * 1) := by
  have h1 : PelvisRunFrame M (pelvisNodeEx noHit noHit (⟨0, 0, 0⟩ : FVector ℚ))
      pelvisFrameFloor = some ⟨pelvisNodeEx (floorHit 1) (floorHit 1) ⟨0, 0, 1⟩,
        [⟨3, FTransform.ofTranslation ⟨0, 0, 1⟩⟩],
        some ⟨false, 1, ⟨0, 0, 1⟩, ⟨0, 0, 0⟩, ⟨0, 0, 1⟩, ⟨0, 0, 1⟩⟩⟩ := by
    unfold PelvisRunFrame
    rw [pelvis_eval_reaches M _ _ ⟨1⟩ ⟨2⟩ ⟨3⟩ (floorHit 1) (floorHit 1) 0 rfl rfl rfl rfl rfl rfl]
    simp [TargetPelvisDelta, RawTargetPelvisDelta, floorHit, noHit, pelvisHostEx,
      pelvisNodeEx, pelvisFrameFloor, UpdateInternal, FTransform.ofTranslation,
      FTransform.GetLocation, FTransform.SetLocation, FVector.GetClampedToMaxSize,
      FVector.SizeSquared, FVector.sub_def, FVector.add_def, KINDA_SMALL_NUMBER]
    norm_num
  have h2 : PelvisRunFrame M (pelvisNodeEx (floorHit 1) (floorHit 1) (⟨0, 0, 1⟩ : FVector ℚ))
      pelvisFrameNoHit = some ⟨pelvisNodeEx noHit noHit ⟨0, 0, -1⟩,
        [⟨3, FTransform.ofTranslation ⟨0, 0, -1⟩⟩],
        some ⟨true, 0, ⟨0, 0, 0⟩, ⟨0, 0, 1⟩, ⟨0, 0, -1⟩, ⟨0, 0, -1⟩⟩⟩ := by
    unfold PelvisRunFrame
    rw [pelvis_eval_reaches M _ _ ⟨1⟩ ⟨2⟩ ⟨3⟩ noHit noHit 0 rfl rfl rfl rfl rfl rfl]
    norm_num [TargetPelvisDelta, floorHit, noHit, pelvisHostEx,
      pelvisNodeEx, pelvisFrameNoHit, UpdateInternal, FTransform.ofTranslation,
      FTransform.GetLocation, FTransform.SetLocation, FVector.GetClampedToMaxSize,
      FVector.SizeSquared, FVector.sub_def, FVector.add_def, KINDA_SMALL_NUMBER]
  refine ⟨?_, ?_, ?_⟩
  · simp only [PelvisRunFrames, h1]
    simp [pelvisNodeEx]
  · simp only [PelvisRunFrames, h1, h2]
    simp [pelvisNodeEx]
  · norm_num [FVector.SizeSquared, FVector.sub_def]

end PelvisTheorems

section Loops

variable {α β γ : Type}

/-- A counted loop that maps the entries of an array, read by index, returns
the mapped prefix. -/
theorem forRange_take_map (l : List α) (h : α → β) :
    ∀ n, n ≤ l.length → forRange (fun i => (l[i]?).map h) n = some ((l.take n).map h)
  | 0, _ => by simp [forRange]
  | n + 1, hn => by
    have ih := forRange_take_map l h n (by omega)
    have hlt : n < l.length := by omega
    have ht : l.take (n + 1) = l.take n ++ [l[n]] := by
      rw [List.take_succ, List.getElem?_eq_getElem hlt]; rfl
    rw [forRange, ih, ht, List.map_append]
    simp only [List.getElem?_eq_getElem hlt, Option.map_some', List.map_cons, List.map_nil]

/-- A counted loop over a whole array is `List.map`. -/
theorem forRange_length_map (l : List α) (h : α → β) :
    forRange (fun i => (l[i]?).map h) l.length = some (l.map h) := by
  rw [forRange_take_map l h l.length (le_refl _), List.take_length]

/-- A counted loop whose body pairs the entries of two arrays, read by index,
returns the zipped prefixes. -/
theorem forRange_take_zipWith (l₁ : List α) (l₂ : List β) (mk : α → β → γ)
    {f : Nat → Option γ} :
    ∀ n, n ≤ l₁.length → n ≤ l₂.length →
      (∀ i a b, l₁[i]? = some a → l₂[i]? = some b → f i = some (mk a b)) →
      forRange f n = some (List.zipWith mk (l₁.take n) (l₂.take n))
  | 0, _, _, _ => by simp [forRange]
  | n + 1, h₁, h₂, hf => by
    have ih := forRange_take_zipWith l₁ l₂ mk n (by omega) (by omega) hf
    have hlt₁ : n < l₁.length := by omega
    have hlt₂ : n < l₂.length := by omega
    have hlen : (l₁.take n).length = (l₂.take n).length := by
      simp [List.length_take]; omega
    rw [forRange, ih, List.take_succ, List.take_succ, List.getElem?_eq_getElem hlt₁,
      List.getElem?_eq_getElem hlt₂,
      hf n _ _ (List.getElem?_eq_getElem hlt₁) (List.getElem?_eq_getElem hlt₂)]
    simp only [Option.toList]
    rw [List.zipWith_append _ _ _ _ _ hlen]
    simp

/-- A counted loop whose body succeeds at every index succeeds. -/
theorem forRange_isSome {f : Nat → Option α} :
    ∀ n, (∀ i, i < n → ∃ a, f i = some a) → ∃ xs, forRange f n = some xs
  | 0, _ => ⟨[], rfl⟩
  | n + 1, hf => by
    obtain ⟨xs, hxs⟩ := forRange_isSome n (fun i hi => hf i (by omega))
    obtain ⟨a, ha⟩ := hf n (by omega)
    exact ⟨xs ++ [a], by rw [forRange, hxs, ha]⟩

end Loops

section FabrikTheorems

variable {F C R : Type} [LinearOrderedField F]

open FAnimNode_RangeLimitedFabrik

/-- On a chain of at least two links and a destination array of the chain's
length the tip-bone rotation handling succeeds, keeps the length and changes
no entry before the last. -/
theorem fabrik_tip_rotation (node : FAnimNode_RangeLimitedFabrik F C R) (host : FabrikHost F)
    (Chain : FIKModChain C) (E : FTransform F) (D : List (FTransform F))
    (hn : 2 ≤ Chain.Num) (hD : D.length = Chain.Num) :
    ∃ Dest, ApplyTipRotation node host Chain E Chain.Num D = some Dest ∧
      Dest.length = Chain.Num ∧ ∀ i, i + 1 < Chain.Num → Dest[i]? = D[i]? := by
  have h1 : Chain.Num - 1 < Chain.BonesRootToEffector.length := by
    unfold FIKModChain.Num at *; omega
  have h2 : Chain.Num - 1 < D.length := by omega
  have h3 : Chain.Num - 1 - 1 < D.length := by omega
  have hgt : Chain.Num > 1 := by omega
  unfold ApplyTipRotation
  split
  · simp only [hgt, if_true, FIKModChain.get?, List.getElem?_eq_getElem h1,
      List.getElem?_eq_getElem h2, List.getElem?_eq_getElem h3]
    refine ⟨_, rfl, by simp [hD], fun i hi => ?_⟩
    exact List.getElem?_set_ne (by omega)
  · simp only [List.getElem?_eq_getElem h2]
    refine ⟨_, rfl, by simp [hD], fun i hi => ?_⟩
    exact List.getElem?_set_ne (by omega)
  · exact ⟨D, rfl, hD, fun _ _ => rfl⟩

/-- What an evaluation of the FABRIK node returns on a chain of at least two
links, once the tip-bone rotation handling has produced `Dest`. -/
theorem fabrik_eval_eq (cfg : BuildConfig) (solve : Solver F (Option C))
    (node : FAnimNode_RangeLimitedFabrik F C R) (host : FabrikHost F)
    (Out : List (FBoneTransform F)) (IKChain : IKChainWrapper C R)
    (call : SolverCall F (Option C)) (Dest : List (FTransform F))
    (hChain : node.IKChain = some IKChain) (hn : 2 ≤ IKChain.Chain.Num)
    (hcall : call = ⟨IKChain.Chain.BonesRootToEffector.map
        (fun b => host.GetComponentSpaceTransform b.BoneIndex),
      IKChain.Chain.BonesRootToEffector.map (fun b => b.Constraint),
      (CSEffectorTransform node host).GetLocation,
      node.Precision, node.MaxIterations, host.Character⟩)
    (hTip : ApplyTipRotation node host IKChain.Chain (CSEffectorTransform node host)
      IKChain.Chain.Num (solve call).2 = some Dest)
    (hDlen : Dest.length = IKChain.Chain.Num) :
    EvaluateSkeletalControl_AnyThread cfg solve node host Out =
      some ⟨if cfg.WITH_EDITOR then
              { node with CachedEffectorCSTransform := CSEffectorTransform node host }
            else node,
        if (solve call).1 then
          Out ++ List.zipWith (fun b t => (⟨b.BoneIndex, t⟩ : FBoneTransform F))
            IKChain.Chain.BonesRootToEffector Dest
        else Out,
        [call]⟩ := by
  subst hcall
  have hnot : ¬ IKChain.Chain.Num < 2 := by omega
  have ht₁ : List.take IKChain.Chain.Num IKChain.Chain.BonesRootToEffector =
      IKChain.Chain.BonesRootToEffector := List.take_length _
  have ht₂ : List.take IKChain.Chain.Num Dest = Dest := by rw [← hDlen, List.take_length]
  have hg1 : forRange (fun i => (IKChain.Chain.BonesRootToEffector[i]?).map
      (fun b => host.GetComponentSpaceTransform b.BoneIndex)) IKChain.Chain.Num = _ :=
    forRange_length_map _ _
  have hg2 : forRange (fun i => (IKChain.Chain.BonesRootToEffector[i]?).map
      (fun b => b.Constraint)) IKChain.Chain.Num = _ :=
    forRange_length_map _ _
  unfold EvaluateSkeletalControl_AnyThread
  simp only [hChain, hnot, if_false, FIKModChain.get?, hg1, hg2, hTip]
  split
  · rw [forRange_take_zipWith IKChain.Chain.BonesRootToEffector Dest
      (fun b t => (⟨b.BoneIndex, t⟩ : FBoneTransform F)) IKChain.Chain.Num
      (le_refl _) (by rw [hDlen]) (fun i a b ha hb => by simp only [ha, hb]), ht₁, ht₂]
  · rfl

/-- C7. FABRIK node commit rule. On a chain of `n ≥ 2` links, with a solver
that returns as many transforms as it is given, the node calls the solver on
the chain's component-space transforms and constraints, applies the tip-bone
rotation policy to the destination array (which changes at most its last
entry), and then: when the solver returned `false`, `OutBoneTransforms` is left
as it was (empty); when it returned `true`, exactly `n` entries are appended, in
root-to-effector order, the `i`-th pairing the `i`-th link's bone index with
the `i`-th destination transform. -/
theorem fabrik_commit_rule (cfg : BuildConfig) (solve : Solver F (Option C))
    (node : FAnimNode_RangeLimitedFabrik F C R) (host : FabrikHost F)
    (Out : List (FBoneTransform F)) (IKChain : IKChainWrapper C R)
    (hChain : node.IKChain = some IKChain) (hn : 2 ≤ IKChain.Chain.Num)
    (hsolve : ∀ c, (solve c).2.length = c.InCSTransforms.length) :
    ∃ (r : FabrikEval F C R) (call : SolverCall F (Option C)) (Dest : List (FTransform F)),
      EvaluateSkeletalControl_AnyThread cfg solve node host Out = some r ∧
      r.SolverCalls = [call] ∧
      call.InCSTransforms = IKChain.Chain.BonesRootToEffector.map
        (fun b => host.GetComponentSpaceTransform b.BoneIndex) ∧
      call.Constraints = IKChain.Chain.BonesRootToEffector.map (fun b => b.Constraint) ∧
      ApplyTipRotation node host IKChain.Chain (CSEffectorTransform node host)
        IKChain.Chain.Num (solve call).2 = some Dest ∧
      Dest.length = IKChain.Chain.Num ∧
      (∀ i, i + 1 < IKChain.Chain.Num → Dest[i]? = (solve call).2[i]?) ∧
      ((solve call).1 = false → r.OutBoneTransforms = Out) ∧
      ((solve call).1 = true →
        ∃ Added : List (FBoneTransform F), r.OutBoneTransforms = Out ++ Added ∧
          Added.length = IKChain.Chain.Num ∧
          ∀ i (b : FIKBone C) (t : FTransform F),
            IKChain.Chain.get? i = some b → Dest[i]? = some t →
            Added[i]? = some ⟨b.BoneIndex, t⟩) := by
  have hlenS : (IKChain.Chain.BonesRootToEffector.map
      (fun b => host.GetComponentSpaceTransform b.BoneIndex)).length = IKChain.Chain.Num := by
    simp [FIKModChain.Num]
  obtain ⟨Dest, hTip, hDlen, hDpre⟩ := fabrik_tip_rotation node host IKChain.Chain
    (CSEffectorTransform node host)
    (solve ⟨IKChain.Chain.BonesRootToEffector.map
        (fun b => host.GetComponentSpaceTransform b.BoneIndex),
      IKChain.Chain.BonesRootToEffector.map (fun b => b.Constraint),
      (CSEffectorTransform node host).GetLocation,
      node.Precision, node.MaxIterations, host.Character⟩).2 hn
    (by rw [hsolve]; exact hlenS)
  refine ⟨_, _, Dest, fabrik_eval_eq cfg solve node host Out IKChain _ Dest hChain hn rfl
    hTip hDlen, rfl, rfl, rfl, hTip, hDlen, hDpre, ?_, ?_⟩
  · intro hb
    simp [hb]
  · intro hb
    refine ⟨List.zipWith (fun b t => (⟨b.BoneIndex, t⟩ : FBoneTransform F))
      IKChain.Chain.BonesRootToEffector Dest, by simp only [hb, if_true], ?_, ?_⟩
    · simp [hDlen, FIKModChain.Num]
    · intro i b t hbi hti
      simp only [FIKModChain.get?] at hbi
      simp [List.getElem?_zipWith, hbi, hti]

/-- Witness of `fabrik_commit_rule`: the three-link chain on bones `0`, `1`,
`2` over `ℚ`, with a solver that reports a change. -/
theorem fabrik_commit_rule_witness :
    ∃ (r : FabrikEval ℚ Unit Unit) (call : SolverCall ℚ (Option Unit))
        (Dest : List (FTransform ℚ)),
      EvaluateSkeletalControl_AnyThread cfgEx solveEx (fabrikNodeEx chain3Ex) fabrikHostEx []
        = some r ∧
      r.SolverCalls = [call] ∧
      call.InCSTransforms = chain3Ex.map
        (fun b => (fabrikHostEx : FabrikHost ℚ).GetComponentSpaceTransform b.BoneIndex) ∧
      call.Constraints = chain3Ex.map (fun b => b.Constraint) ∧
      ApplyTipRotation (fabrikNodeEx chain3Ex : FAnimNode_RangeLimitedFabrik ℚ Unit Unit)
        fabrikHostEx ⟨chain3Ex⟩ (CSEffectorTransform (fabrikNodeEx chain3Ex) fabrikHostEx)
        3 (solveEx call).2 = some Dest ∧
      Dest.length = 3 ∧
      (∀ i, i + 1 < 3 → Dest[i]? = (solveEx call : Bool × List (FTransform ℚ)).2[i]?) ∧
      ((solveEx call : Bool × List (FTransform ℚ)).1 = false → r.OutBoneTransforms = []) ∧
      ((solveEx call : Bool × List (FTransform ℚ)).1 = true →
        ∃ Added : List (FBoneTransform ℚ), r.OutBoneTransforms = [] ++ Added ∧
          Added.length = 3 ∧
          ∀ i (b : FIKBone Unit) (t : FTransform ℚ),
            (⟨chain3Ex⟩ : FIKModChain Unit).get? i = some b → Dest[i]? = some t →
            Added[i]? = some ⟨b.BoneIndex, t⟩) :=
  fabrik_commit_rule cfgEx solveEx (fabrikNodeEx chain3Ex) fabrikHostEx []
    ⟨⟨chain3Ex⟩, fun _ => true⟩ rfl (by decide) (fun _ => rfl)

/-- C8. FABRIK node validity: `IsValidToEvaluate` answers `true` exactly when
the chain wrapper is non-null, the chain has at least two links, `Precision`
is positive and the chain's bones are valid for the required bones; and an
evaluation on a chain with fewer than two links returns with
`OutBoneTransforms` as it was and without a solver call. -/
theorem fabrik_validity (cfg : BuildConfig) (solve : Solver F (Option C))
    (node : FAnimNode_RangeLimitedFabrik F C R) (host : FabrikHost F)
    (Out : List (FBoneTransform F)) (RequiredBones : R) :
    (IsValidToEvaluate node RequiredBones = true ↔
      ∃ IKChain, node.IKChain = some IKChain ∧ 2 ≤ IKChain.Chain.Num ∧
        0 < node.Precision ∧ IKChain.IsValid RequiredBones = true) ∧
    (∀ IKChain, node.IKChain = some IKChain → IKChain.Chain.Num < 2 →
      ∃ r, EvaluateSkeletalControl_AnyThread cfg solve node host Out = some r ∧
        r.OutBoneTransforms = Out ∧ r.SolverCalls = []) := by
  constructor
  · unfold IsValidToEvaluate
    cases h : node.IKChain with
    | none => simp
    | some IKChain =>
      by_cases hlt : IKChain.Chain.Num < 2
      · simp [hlt]
      · simp [hlt, not_lt.mp hlt]
  · intro IKChain hChain hlt
    unfold EvaluateSkeletalControl_AnyThread
    simp [hChain, hlt]

/-- Witness of `fabrik_validity`: a one-link chain over `ℚ`. -/
theorem fabrik_validity_witness :
    (IsValidToEvaluate (fabrikNodeEx [⟨0, none⟩] : FAnimNode_RangeLimitedFabrik ℚ Unit Unit) ()
        = true ↔
      ∃ IKChain, (fabrikNodeEx [⟨0, none⟩] : FAnimNode_RangeLimitedFabrik ℚ Unit Unit).IKChain
          = some IKChain ∧ 2 ≤ IKChain.Chain.Num ∧
        0 < (fabrikNodeEx [⟨0, none⟩] : FAnimNode_RangeLimitedFabrik ℚ Unit Unit).Precision ∧
        IKChain.IsValid () = true) ∧
    ∃ r, EvaluateSkeletalControl_AnyThread cfgEx solveEx
        (fabrikNodeEx [⟨0, none⟩] : FAnimNode_RangeLimitedFabrik ℚ Unit Unit) fabrikHostEx []
        = some r ∧ r.OutBoneTransforms = [] ∧ r.SolverCalls = [] :=
  ⟨(fabrik_validity cfgEx solveEx (fabrikNodeEx [⟨0, none⟩]) fabrikHostEx [] ()).1,
   (fabrik_validity cfgEx solveEx (fabrikNodeEx [⟨0, none⟩]) fabrikHostEx [] ()).2
     ⟨⟨[⟨0, none⟩]⟩, fun _ => true⟩ rfl (by decide)⟩

end FabrikTheorems

section TorsoTheorems

variable {F C R : Type} [LinearOrderedField F]

open FAnimNode_HumanoidArmTorsoAdjust

/-- The array accesses of a debug-draw loop succeed on an array of at least
`NumBones` entries. -/
theorem debugDrawChain_ok (xs : List (FTransform F)) (NumBones : Nat)
    (h : NumBones ≤ xs.length) : DebugDrawChain xs NumBones = some () := by
  unfold DebugDrawChain
  obtain ⟨ys, hys⟩ := forRange_isSome (f := fun i =>
      match xs[i]?, xs[i + 1]? with
      | some _, some _ => some ()
      | _, _ => none) (NumBones - 1) (fun i hi => by
    have h1 : i < xs.length := by omega
    have h2 : i + 1 < xs.length := by omega
    exact ⟨(), by simp only [List.getElem?_eq_getElem h1, List.getElem?_eq_getElem h2]⟩)
  rw [hys]
  rfl

/-- What an evaluation of the torso node returns when the pivot socket
resolves, the arm has at least one bone and the axis check (compiled in with
`ENABLE_IK_DEBUG`) passes: nothing is added to `OutBoneTransforms`, and the
solver is called once, on the augmented chain. -/
theorem torso_eval_eq (cfg : BuildConfig) (M : FMath F)
    (solve : Solver F (TorsoConstraintPtr F C)) (Constructed : FPlanarRotation F)
    (node : FAnimNode_HumanoidArmTorsoAdjust F C R) (host : TorsoHost F)
    (TorsoPivotSocket : USkeletalMeshSocket F) (Arm : IKChainWrapper C R)
    (hSock : host.GetSocketByName node.TorsoPivotSocketName = some TorsoPivotSocket)
    (hArm : node.Arm = some Arm) (hk : 1 ≤ Arm.Chain.Num)
    (hAxes : cfg.ENABLE_IK_DEBUG = true →
      (FVector.CrossProduct (host.GetSkeletalMeshComponentAxis node.SkeletonForwardAxis)
        (host.GetSkeletalMeshComponentAxis node.SkeletonUpAxis)).IsNormalized = true)
    (hsolve : ∀ c, (solve c).2.length = c.InCSTransforms.length) :
    ∃ (Shoulder : FIKBone C) (call : SolverCall F (TorsoConstraintPtr F C)),
      Arm.Chain.get? 0 = some Shoulder ∧
      EvaluateSkeletalControl_AnyThread cfg M solve Constructed node host [] =
        some ⟨[], [call]⟩ ∧
      call.InCSTransforms =
        [FTransform.ofTranslation (host.ToCS TorsoPivotSocket.SocketLocation),
         FTransform.ofTranslation (host.ToCS TorsoPivotSocket.SocketLocation +
           ((host.GetComponentSpaceTransform Shoulder.BoneIndex).GetLocation -
             host.ToCS TorsoPivotSocket.SocketLocation).ProjectOnTo
               (host.GetSkeletalMeshComponentAxis node.SkeletonUpAxis))] ++
        Arm.Chain.BonesRootToEffector.map
          (fun Bone => host.GetComponentSpaceTransform Bone.BoneIndex) ∧
      call.Constraints =
        [TorsoConstraintPtr.Local
          { TorsoPitchConstraint M Constructed node
              (FVector.CrossProduct (host.GetSkeletalMeshComponentAxis node.SkeletonForwardAxis)
                (host.GetSkeletalMeshComponentAxis node.SkeletonUpAxis))
              (host.GetSkeletalMeshComponentAxis node.SkeletonUpAxis)
              (FTransform.ofTranslation (host.ToCS TorsoPivotSocket.SocketLocation +
                ((host.GetComponentSpaceTransform Shoulder.BoneIndex).GetLocation -
                  host.ToCS TorsoPivotSocket.SocketLocation).ProjectOnTo
                    (host.GetSkeletalMeshComponentAxis node.SkeletonUpAxis)))
              (FTransform.ofTranslation (host.ToCS TorsoPivotSocket.SocketLocation))
              (host.GetComponentSpaceTransform node.WaistBone.BoneIndex).GetLocation
            with bEnableDebugDraw := true },
         TorsoConstraintPtr.Local (TorsoTwistConstraint Constructed node
           (FVector.CrossProduct (host.GetSkeletalMeshComponentAxis node.SkeletonForwardAxis)
             (host.GetSkeletalMeshComponentAxis node.SkeletonUpAxis)))] ++
        Arm.Chain.BonesRootToEffector.map
          (fun Bone => TorsoConstraintPtr.Bone Bone.Constraint) := by
  have hlt : 0 < Arm.Chain.BonesRootToEffector.length := hk
  have hnot : ¬ Arm.Chain.Num < 1 := by omega
  have hSh : Arm.Chain.get? 0 = some (Arm.Chain.BonesRootToEffector[0]) := by
    simp only [FIKModChain.get?, List.getElem?_eq_getElem hlt]
  have hguard : (cfg.ENABLE_IK_DEBUG &&
      !(FVector.CrossProduct (host.GetSkeletalMeshComponentAxis node.SkeletonForwardAxis)
        (host.GetSkeletalMeshComponentAxis node.SkeletonUpAxis)).IsNormalized) = false := by
    cases hdbg : cfg.ENABLE_IK_DEBUG with
    | false => rfl
    | true => simp [hAxes hdbg]
  refine ⟨_, ⟨_, _, host.ToCS node.EffectorWorldTarget, node.Precision, node.MaxIterations,
    host.Character⟩, hSh, ?_, rfl, rfl⟩
  unfold EvaluateSkeletalControl_AnyThread
  simp only [List.length_nil, ne_eq, not_true_eq_false, if_false, hSock, hArm, hnot, hSh,
    hguard, Bool.false_eq_true, List.nil_append, FTransform.GetLocation,
    FTransform.ofTranslation]
  split
  · rw [debugDrawChain_ok _ _ (by simp [FIKModChain.Num]),
      debugDrawChain_ok _ _ (by rw [hsolve]; simp [FIKModChain.Num])]
    rfl
  · rfl

/-- No path through the torso node's evaluation adds to `OutBoneTransforms`:
whenever the evaluation returns, the array is as it was on entry. -/
theorem torso_out_unchanged (cfg : BuildConfig) (M : FMath F)
    (solve : Solver F (TorsoConstraintPtr F C)) (Constructed : FPlanarRotation F)
    (node : FAnimNode_HumanoidArmTorsoAdjust F C R) (host : TorsoHost F)
    (Out : List (FBoneTransform F)) (r : TorsoEval F C)
    (h : EvaluateSkeletalControl_AnyThread cfg M solve Constructed node host Out = some r) :
    r.OutBoneTransforms = Out := by
  unfold EvaluateSkeletalControl_AnyThread at h
  repeat' split at h
  all_goals try (cases h; rfl)
  all_goals try (simp at h; done)
  all_goals dsimp only at h
  all_goals repeat' split at h
  all_goals first
    | (cases h; rfl)
    | (simp at h)

/-- The routines of real analysis have the properties collected in
`FMath.Sound`. -/
theorem realMath_sound :
    FMath.Sound (⟨Real.sqrt, fun x => (Real.sqrt x)⁻¹, Real.tan, Real.arctan, Real.arccos,
      Real.sin, Real.cos, Real.pi⟩ : FMath ℝ) where
  PI_pos := Real.pi_pos
  Sqrt_nonneg := Real.sqrt_nonneg
  Tan_nonneg := fun _ h0 h1 => Real.tan_nonneg_of_nonneg_of_le_pi_div_two h0 (le_of_lt h1)
  Atan_nonneg := fun x hx => by
    have h := Real.arctan_strictMono.monotone hx
    rwa [Real.arctan_zero] at h
  InvSqrt_sq := fun x hx => by
    have hs : Real.sqrt x ≠ 0 := Real.sqrt_ne_zero'.mpr hx
    show (Real.sqrt x)⁻¹ * (Real.sqrt x)⁻¹ * x = 1
    field_simp

/-- C6, the code at a failing input. The pivot socket resolves, the arm has
the two bones `10` and `11`, the axes `X` and `Z` are orthogonal, and the solver
reports a change: the node calls the solver once and returns with
`OutBoneTransforms` empty, so no arm bone is paired with its destination
transform. -/
theorem torso_no_write_back (M : FMath ℚ) :
    (EvaluateSkeletalControl_AnyThread cfgEx M solveEx planarEx
        (torsoNodeEx : FAnimNode_HumanoidArmTorsoAdjust ℚ Unit Unit) torsoHostEx []).map
      (fun r => (r.OutBoneTransforms, r.SolverCalls.map (fun c => (solveEx c).1)))
      = some ([], [true]) := by
  obtain ⟨_, call, _, hE, _, _⟩ := torso_eval_eq cfgEx M solveEx planarEx
    (torsoNodeEx : FAnimNode_HumanoidArmTorsoAdjust ℚ Unit Unit) torsoHostEx
    ⟨⟨0, 0, 1⟩⟩ armEx rfl rfl (by decide) (by simp [cfgEx]) (fun _ => rfl)
  rw [hE]
  rfl

/-- C9. Torso pitch interval conversion. For bend angles in `[0, 90)` degrees
and a non-zero neck-pivot distance, the pitch constraint built by lines
99-121 has `MaxDegrees = degrees(atan(tan(radians(MaxForwardBendDegrees)) *
|neck - waist| / |neck - pivot|))`, `MinDegrees` the negated value for
`MaxBackwardBendDegress`, rotation axis `-1 * (forward × up)`, which is the
negated lateral axis, forward reference and failsafe both the up axis, and
`MinDegrees ≤ 0 ≤ MaxDegrees`. -/
theorem torso_pitch_interval (M : FMath F) (hM : M.Sound) (Constructed : FPlanarRotation F)
    (node : FAnimNode_HumanoidArmTorsoAdjust F C R) (ForwardAxis UpAxis : FVector F)
    (NeckCS PivotCS : FTransform F) (WaistCS : FVector F)
    (hF0 : 0 ≤ node.MaxForwardBendDegrees) (hF90 : node.MaxForwardBendDegrees < 90)
    (hB0 : 0 ≤ node.MaxBackwardBendDegress) (hB90 : node.MaxBackwardBendDegress < 90)
    (_hdist : (NeckCS.GetLocation - PivotCS.GetLocation).Size M ≠ 0) :
    ∃ p, TorsoPitchConstraint M Constructed node (FVector.CrossProduct ForwardAxis UpAxis)
        UpAxis NeckCS PivotCS WaistCS = p ∧
      p.MaxDegrees = M.RadiansToDegrees (M.Atan
        (M.Tan (M.DegreesToRadians node.MaxForwardBendDegrees) *
          (NeckCS.GetLocation - WaistCS).Size M /
          (NeckCS.GetLocation - PivotCS.GetLocation).Size M)) ∧
      p.MinDegrees = -M.RadiansToDegrees (M.Atan
        (M.Tan (M.DegreesToRadians node.MaxBackwardBendDegress) *
          (NeckCS.GetLocation - WaistCS).Size M /
          (NeckCS.GetLocation - PivotCS.GetLocation).Size M)) ∧
      p.RotationAxis = (FVector.CrossProduct ForwardAxis UpAxis).scale (-1) ∧
      p.RotationAxis = -(FVector.CrossProduct ForwardAxis UpAxis) ∧
      p.ForwardDirection = UpAxis ∧ p.FailsafeDirection = UpAxis ∧
      p.MinDegrees ≤ 0 ∧ 0 ≤ p.MaxDegrees := by
  have hpi := hM.PI_pos
  have hdeg : ∀ a : F, 0 ≤ a → a < 90 →
      0 ≤ M.RadiansToDegrees (M.Atan (M.Tan (M.DegreesToRadians a) *
        (NeckCS.GetLocation - WaistCS).Size M /
        (NeckCS.GetLocation - PivotCS.GetLocation).Size M)) := by
    intro a ha0 ha90
    have hr0 : 0 ≤ M.DegreesToRadians a := by
      unfold FMath.DegreesToRadians
      positivity
    have hr1 : M.DegreesToRadians a < M.PI / 2 := by
      unfold FMath.DegreesToRadians
      have : a * (M.PI / 180) < 90 * (M.PI / 180) :=
        mul_lt_mul_of_pos_right ha90 (by positivity)
      calc a * (M.PI / 180) < 90 * (M.PI / 180) := this
        _ = M.PI / 2 := by ring
    have ht := hM.Tan_nonneg _ hr0 hr1
    have hs1 := hM.Sqrt_nonneg (NeckCS.GetLocation - WaistCS).SizeSquared
    have hs2 := hM.Sqrt_nonneg (NeckCS.GetLocation - PivotCS.GetLocation).SizeSquared
    have hq : 0 ≤ M.Tan (M.DegreesToRadians a) * (NeckCS.GetLocation - WaistCS).Size M /
        (NeckCS.GetLocation - PivotCS.GetLocation).Size M :=
      div_nonneg (mul_nonneg ht hs1) hs2
    have hat := hM.Atan_nonneg _ hq
    unfold FMath.RadiansToDegrees
    positivity
  refine ⟨_, rfl, rfl, rfl, rfl, ?_, rfl, rfl, ?_, ?_⟩
  · simp [TorsoPitchConstraint, FVector.scale, FVector.neg_def]
  · exact neg_nonpos.mpr (hdeg _ hB0 hB90)
  · exact hdeg _ hF0 hF90

/-- Witness of `torso_pitch_interval`: over the reals, bend limits of 45 and
30 degrees, pivot `(0, 0, 1)`, neck `(0, 0, 2)`, waist `(0, 0, 3/2)`. -/
theorem torso_pitch_interval_witness :
    ∃ p, TorsoPitchConstraint (⟨Real.sqrt, fun x => (Real.sqrt x)⁻¹, Real.tan, Real.arctan, Real.arccos,
        Real.sin, Real.cos, Real.pi⟩ : FMath ℝ) planarEx (torsoNodeEx : FAnimNode_HumanoidArmTorsoAdjust ℝ Unit Unit) (FVector.CrossProduct (⟨1, 0, 0⟩ : FVector ℝ) (⟨0, 0, 1⟩ : FVector ℝ))
        (⟨0, 0, 1⟩ : FVector ℝ) (FTransform.ofTranslation ⟨0, 0, 2⟩ : FTransform ℝ) (FTransform.ofTranslation ⟨0, 0, 1⟩ : FTransform ℝ) (⟨0, 0, 3 / 2⟩ : FVector ℝ) = p ∧
      p.MaxDegrees = FMath.RadiansToDegrees (⟨Real.sqrt, fun x => (Real.sqrt x)⁻¹, Real.tan, Real.arctan, Real.arccos,
        Real.sin, Real.cos, Real.pi⟩ : FMath ℝ) (FMath.Atan (⟨Real.sqrt, fun x => (Real.sqrt x)⁻¹, Real.tan, Real.arctan, Real.arccos,
        Real.sin, Real.cos, Real.pi⟩ : FMath ℝ)
        (FMath.Tan (⟨Real.sqrt, fun x => (Real.sqrt x)⁻¹, Real.tan, Real.arctan, Real.arccos,
        Real.sin, Real.cos, Real.pi⟩ : FMath ℝ) (FMath.DegreesToRadians (⟨Real.sqrt, fun x => (Real.sqrt x)⁻¹, Real.tan, Real.arctan, Real.arccos,
        Real.sin, Real.cos, Real.pi⟩ : FMath ℝ) (torsoNodeEx : FAnimNode_HumanoidArmTorsoAdjust ℝ Unit Unit).MaxForwardBendDegrees) *
          ((FTransform.ofTranslation ⟨0, 0, 2⟩ : FTransform ℝ).GetLocation - (⟨0, 0, 3 / 2⟩ : FVector ℝ)).Size (⟨Real.sqrt, fun x => (Real.sqrt x)⁻¹, Real.tan, Real.arctan, Real.arccos,
        Real.sin, Real.cos, Real.pi⟩ : FMath ℝ) /
          ((FTransform.ofTranslation ⟨0, 0, 2⟩ : FTransform ℝ).GetLocation - (FTransform.ofTranslation ⟨0, 0, 1⟩ : FTransform ℝ).GetLocation).Size (⟨Real.sqrt, fun x => (Real.sqrt x)⁻¹, Real.tan, Real.arctan, Real.arccos,
        Real.sin, Real.cos, Real.pi⟩ : FMath ℝ))) ∧
      p.MinDegrees = -FMath.RadiansToDegrees (⟨Real.sqrt, fun x => (Real.sqrt x)⁻¹, Real.tan, Real.arctan, Real.arccos,
        Real.sin, Real.cos, Real.pi⟩ : FMath ℝ) (FMath.Atan (⟨Real.sqrt, fun x => (Real.sqrt x)⁻¹, Real.tan, Real.arctan, Real.arccos,
        Real.sin, Real.cos, Real.pi⟩ : FMath ℝ)
        (FMath.Tan (⟨Real.sqrt, fun x => (Real.sqrt x)⁻¹, Real.tan, Real.arctan, Real.arccos,
        Real.sin, Real.cos, Real.pi⟩ : FMath ℝ) (FMath.DegreesToRadians (⟨Real.sqrt, fun x => (Real.sqrt x)⁻¹, Real.tan, Real.arctan, Real.arccos,
        Real.sin, Real.cos, Real.pi⟩ : FMath ℝ) (torsoNodeEx : FAnimNode_HumanoidArmTorsoAdjust ℝ Unit Unit).MaxBackwardBendDegress) *
          ((FTransform.ofTranslation ⟨0, 0, 2⟩ : FTransform ℝ).GetLocation - (⟨0, 0, 3 / 2⟩ : FVector ℝ)).Size (⟨Real.sqrt, fun x => (Real.sqrt x)⁻¹, Real.tan, Real.arctan, Real.arccos,
        Real.sin, Real.cos, Real.pi⟩ : FMath ℝ) /
          ((FTransform.ofTranslation ⟨0, 0, 2⟩ : FTransform ℝ).GetLocation - (FTransform.ofTranslation ⟨0, 0, 1⟩ : FTransform ℝ).GetLocation).Size (⟨Real.sqrt, fun x => (Real.sqrt x)⁻¹, Real.tan, Real.arctan, Real.arccos,
        Real.sin, Real.cos, Real.pi⟩ : FMath ℝ))) ∧
      p.RotationAxis = (FVector.CrossProduct (⟨1, 0, 0⟩ : FVector ℝ) (⟨0, 0, 1⟩ : FVector ℝ)).scale (-1) ∧
      p.RotationAxis = -(FVector.CrossProduct (⟨1, 0, 0⟩ : FVector ℝ) (⟨0, 0, 1⟩ : FVector ℝ)) ∧
      p.ForwardDirection = (⟨0, 0, 1⟩ : FVector ℝ) ∧ p.FailsafeDirection = (⟨0, 0, 1⟩ : FVector ℝ) ∧
      p.MinDegrees ≤ 0 ∧ 0 ≤ p.MaxDegrees :=
  torso_pitch_interval _ realMath_sound planarEx
    (torsoNodeEx : FAnimNode_HumanoidArmTorsoAdjust ℝ Unit Unit) ⟨1, 0, 0⟩ ⟨0, 0, 1⟩
    (FTransform.ofTranslation ⟨0, 0, 2⟩) (FTransform.ofTranslation ⟨0, 0, 1⟩) ⟨0, 0, 3 / 2⟩
    (by norm_num [torsoNodeEx]) (by norm_num [torsoNodeEx])
    (by norm_num [torsoNodeEx]) (by norm_num [torsoNodeEx])
    (by norm_num [FVector.Size, FVector.SizeSquared, FVector.sub_def, FTransform.ofTranslation,
      FTransform.GetLocation])

/-- C10. Humanoid augmented chain. For an arm chain of `k ≥ 1` bones (with the
pivot socket resolved and the axis check passed) the node calls the solver
once; the transform list and the constraint list of that call both have
length `k + 2`; transform 0 is the pivot, the socket location in component
space; transform 1 is the neck, the pivot plus the projection of
`shoulder - pivot` onto the up axis; transform `i + 2` is the component-space
transform of the `i`-th arm bone, root to effector; constraint 0 is the pitch
constraint, constraint 1 the twist constraint (the one carrying the setup
lambda) and constraint `i + 2` the `i`-th arm bone's own constraint. -/
theorem torso_augmented_chain (cfg : BuildConfig) (M : FMath F)
    (solve : Solver F (TorsoConstraintPtr F C)) (Constructed : FPlanarRotation F)
    (node : FAnimNode_HumanoidArmTorsoAdjust F C R) (host : TorsoHost F)
    (TorsoPivotSocket : USkeletalMeshSocket F) (Arm : IKChainWrapper C R)
    (hSock : host.GetSocketByName node.TorsoPivotSocketName = some TorsoPivotSocket)
    (hArm : node.Arm = some Arm) (hk : 1 ≤ Arm.Chain.Num)
    (hAxes : cfg.ENABLE_IK_DEBUG = true →
      (FVector.CrossProduct (host.GetSkeletalMeshComponentAxis node.SkeletonForwardAxis)
        (host.GetSkeletalMeshComponentAxis node.SkeletonUpAxis)).IsNormalized = true)
    (hsolve : ∀ c, (solve c).2.length = c.InCSTransforms.length) :
    ∃ (Shoulder : FIKBone C) (r : TorsoEval F C)
        (call : SolverCall F (TorsoConstraintPtr F C)),
      Arm.Chain.get? 0 = some Shoulder ∧
      EvaluateSkeletalControl_AnyThread cfg M solve Constructed node host [] = some r ∧
      r.SolverCalls = [call] ∧
      call.InCSTransforms.length = Arm.Chain.Num + 2 ∧
      call.Constraints.length = Arm.Chain.Num + 2 ∧
      call.InCSTransforms[0]? =
        some (FTransform.ofTranslation (host.ToCS TorsoPivotSocket.SocketLocation)) ∧
      call.InCSTransforms[1]? =
        some (FTransform.ofTranslation (host.ToCS TorsoPivotSocket.SocketLocation +
          ((host.GetComponentSpaceTransform Shoulder.BoneIndex).GetLocation -
            host.ToCS TorsoPivotSocket.SocketLocation).ProjectOnTo
              (host.GetSkeletalMeshComponentAxis node.SkeletonUpAxis))) ∧
      (∀ i b, Arm.Chain.get? i = some b →
        call.InCSTransforms[i + 2]? = some (host.GetComponentSpaceTransform b.BoneIndex)) ∧
      call.Constraints[0]? = some (TorsoConstraintPtr.Local
        { TorsoPitchConstraint M Constructed node
            (FVector.CrossProduct (host.GetSkeletalMeshComponentAxis node.SkeletonForwardAxis)
              (host.GetSkeletalMeshComponentAxis node.SkeletonUpAxis))
            (host.GetSkeletalMeshComponentAxis node.SkeletonUpAxis)
            (FTransform.ofTranslation (host.ToCS TorsoPivotSocket.SocketLocation +
              ((host.GetComponentSpaceTransform Shoulder.BoneIndex).GetLocation -
                host.ToCS TorsoPivotSocket.SocketLocation).ProjectOnTo
                  (host.GetSkeletalMeshComponentAxis node.SkeletonUpAxis)))
            (FTransform.ofTranslation (host.ToCS TorsoPivotSocket.SocketLocation))
            (host.GetComponentSpaceTransform node.WaistBone.BoneIndex).GetLocation
          with bEnableDebugDraw := true }) ∧
      call.Constraints[1]? = some (TorsoConstraintPtr.Local
        (TorsoTwistConstraint Constructed node
          (FVector.CrossProduct (host.GetSkeletalMeshComponentAxis node.SkeletonForwardAxis)
            (host.GetSkeletalMeshComponentAxis node.SkeletonUpAxis)))) ∧
      (TorsoTwistConstraint Constructed node
          (FVector.CrossProduct (host.GetSkeletalMeshComponentAxis node.SkeletonForwardAxis)
            (host.GetSkeletalMeshComponentAxis node.SkeletonUpAxis))).SetupFn
        = FSetupFn.TorsoTwistLambda ∧
      (∀ i b, Arm.Chain.get? i = some b →
        call.Constraints[i + 2]? = some (TorsoConstraintPtr.Bone b.Constraint)) := by
  obtain ⟨Shoulder, call, hSh, hE, hT, hCs⟩ := torso_eval_eq cfg M solve Constructed node host
    TorsoPivotSocket Arm hSock hArm hk hAxes hsolve
  refine ⟨Shoulder, _, call, hSh, hE, rfl, ?_, ?_, ?_, ?_, ?_, ?_, ?_, rfl, ?_⟩
  · rw [hT]; simp [FIKModChain.Num]
  · rw [hCs]; simp [FIKModChain.Num]
  · rw [hT]; simp
  · rw [hT]; simp
  · intro i b hb
    simp only [FIKModChain.get?] at hb
    rw [hT]
    simp [hb]
  · rw [hCs]; simp
  · rw [hCs]; simp
  · intro i b hb
    simp only [FIKModChain.get?] at hb
    rw [hCs]
    simp [hb]

/-- Witness of `torso_augmented_chain`: over the reals, the two-bone arm `10`,
`11` with the pivot socket at `(0, 0, 1)`. -/
theorem torso_augmented_chain_witness :
    ∃ (Shoulder : FIKBone Unit) (r : TorsoEval ℝ Unit)
        (call : SolverCall ℝ (TorsoConstraintPtr ℝ Unit)),
      armEx.Chain.get? 0 = some Shoulder ∧
      EvaluateSkeletalControl_AnyThread cfgEx (⟨Real.sqrt, fun x => (Real.sqrt x)⁻¹, Real.tan, Real.arctan, Real.arccos,
        Real.sin, Real.cos, Real.pi⟩ : FMath ℝ) solveEx planarEx (torsoNodeEx : FAnimNode_HumanoidArmTorsoAdjust ℝ Unit Unit) (torsoHostEx : TorsoHost ℝ) [] = some r ∧
      r.SolverCalls = [call] ∧
      call.InCSTransforms.length = armEx.Chain.Num + 2 ∧
      call.Constraints.length = armEx.Chain.Num + 2 ∧
      call.InCSTransforms[0]? =
        some (FTransform.ofTranslation ((torsoHostEx : TorsoHost ℝ).ToCS (⟨⟨0, 0, 1⟩⟩ : USkeletalMeshSocket ℝ).SocketLocation)) ∧
      call.InCSTransforms[1]? =
        some (FTransform.ofTranslation ((torsoHostEx : TorsoHost ℝ).ToCS (⟨⟨0, 0, 1⟩⟩ : USkeletalMeshSocket ℝ).SocketLocation +
          (((torsoHostEx : TorsoHost ℝ).GetComponentSpaceTransform Shoulder.BoneIndex).GetLocation -
            (torsoHostEx : TorsoHost ℝ).ToCS (⟨⟨0, 0, 1⟩⟩ : USkeletalMeshSocket ℝ).SocketLocation).ProjectOnTo
              ((torsoHostEx : TorsoHost ℝ).GetSkeletalMeshComponentAxis (torsoNodeEx : FAnimNode_HumanoidArmTorsoAdjust ℝ Unit Unit).SkeletonUpAxis))) ∧
      (∀ i b, armEx.Chain.get? i = some b →
        call.InCSTransforms[i + 2]? = some ((torsoHostEx : TorsoHost ℝ).GetComponentSpaceTransform b.BoneIndex)) ∧
      call.Constraints[0]? = some (TorsoConstraintPtr.Local
        { TorsoPitchConstraint (⟨Real.sqrt, fun x => (Real.sqrt x)⁻¹, Real.tan, Real.arctan, Real.arccos,
        Real.sin, Real.cos, Real.pi⟩ : FMath ℝ) planarEx (torsoNodeEx : FAnimNode_HumanoidArmTorsoAdjust ℝ Unit Unit)
            (FVector.CrossProduct ((torsoHostEx : TorsoHost ℝ).GetSkeletalMeshComponentAxis (torsoNodeEx : FAnimNode_HumanoidArmTorsoAdjust ℝ Unit Unit).SkeletonForwardAxis)
              ((torsoHostEx : TorsoHost ℝ).GetSkeletalMeshComponentAxis (torsoNodeEx : FAnimNode_HumanoidArmTorsoAdjust ℝ Unit Unit).SkeletonUpAxis))
            ((torsoHostEx : TorsoHost ℝ).GetSkeletalMeshComponentAxis (torsoNodeEx : FAnimNode_HumanoidArmTorsoAdjust ℝ Unit Unit).SkeletonUpAxis)
            (FTransform.ofTranslation ((torsoHostEx : TorsoHost ℝ).ToCS (⟨⟨0, 0, 1⟩⟩ : USkeletalMeshSocket ℝ).SocketLocation +
              (((torsoHostEx : TorsoHost ℝ).GetComponentSpaceTransform Shoulder.BoneIndex).GetLocation -
                (torsoHostEx : TorsoHost ℝ).ToCS (⟨⟨0, 0, 1⟩⟩ : USkeletalMeshSocket ℝ).SocketLocation).ProjectOnTo
                  ((torsoHostEx : TorsoHost ℝ).GetSkeletalMeshComponentAxis (torsoNodeEx : FAnimNode_HumanoidArmTorsoAdjust ℝ Unit Unit).SkeletonUpAxis)))
            (FTransform.ofTranslation ((torsoHostEx : TorsoHost ℝ).ToCS (⟨⟨0, 0, 1⟩⟩ : USkeletalMeshSocket ℝ).SocketLocation))
            ((torsoHostEx : TorsoHost ℝ).GetComponentSpaceTransform (torsoNodeEx : FAnimNode_HumanoidArmTorsoAdjust ℝ Unit Unit).WaistBone.BoneIndex).GetLocation
          with bEnableDebugDraw := true }) ∧
      call.Constraints[1]? = some (TorsoConstraintPtr.Local
        (TorsoTwistConstraint planarEx (torsoNodeEx : FAnimNode_HumanoidArmTorsoAdjust ℝ Unit Unit)
          (FVector.CrossProduct ((torsoHostEx : TorsoHost ℝ).GetSkeletalMeshComponentAxis (torsoNodeEx : FAnimNode_HumanoidArmTorsoAdjust ℝ Unit Unit).SkeletonForwardAxis)
            ((torsoHostEx : TorsoHost ℝ).GetSkeletalMeshComponentAxis (torsoNodeEx : FAnimNode_HumanoidArmTorsoAdjust ℝ Unit Unit).SkeletonUpAxis)))) ∧
      (TorsoTwistConstraint planarEx (torsoNodeEx : FAnimNode_HumanoidArmTorsoAdjust ℝ Unit Unit)
          (FVector.CrossProduct ((torsoHostEx : TorsoHost ℝ).GetSkeletalMeshComponentAxis (torsoNodeEx : FAnimNode_HumanoidArmTorsoAdjust ℝ Unit Unit).SkeletonForwardAxis)
            ((torsoHostEx : TorsoHost ℝ).GetSkeletalMeshComponentAxis (torsoNodeEx : FAnimNode_HumanoidArmTorsoAdjust ℝ Unit Unit).SkeletonUpAxis))).SetupFn
        = FSetupFn.TorsoTwistLambda ∧
      (∀ i b, armEx.Chain.get? i = some b →
        call.Constraints[i + 2]? = some (TorsoConstraintPtr.Bone b.Constraint)) :=
  torso_augmented_chain cfgEx _ solveEx planarEx
    (torsoNodeEx : FAnimNode_HumanoidArmTorsoAdjust ℝ Unit Unit) torsoHostEx
    ⟨⟨0, 0, 1⟩⟩ armEx (by simp [torsoHostEx, torsoNodeEx]) rfl (by decide)
    (by simp [cfgEx]) (fun _ => rfl)

end TorsoTheorems

section TwistSetupTheorems

variable {F : Type} [LinearOrderedField F]

open FAnimNode_HumanoidArmTorsoAdjust

/-- The routines of real analysis have the properties collected in
`FMath.SoundRoots`. -/
theorem realMath_soundRoots :
    FMath.SoundRoots (⟨Real.sqrt, fun x => (Real.sqrt x)⁻¹, Real.tan, Real.arctan, Real.arccos,
      Real.sin, Real.cos, Real.pi⟩ : FMath ℝ) where
  InvSqrt_pos := fun x hx => inv_pos.mpr (Real.sqrt_pos.mpr hx)
  Sqrt_mul_self := fun _ hx => Real.mul_self_sqrt hx
  Sin_sq_add_Cos_sq := fun x => by
    have h := Real.sin_sq_add_cos_sq x
    simpa only [sq] using h

/-- The squared size of a vector is non-negative. -/
theorem FVector.sizeSquared_nonneg (a : FVector F) : 0 ≤ a.SizeSquared := by
  unfold FVector.SizeSquared
  nlinarith [mul_self_nonneg a.X, mul_self_nonneg a.Y, mul_self_nonneg a.Z]

/-- The difference of two distinct positions has positive squared size. -/
theorem FVector.sizeSquared_sub_pos (a b : FVector F) (h : a ≠ b) :
    0 < (b - a).SizeSquared := by
  rcases lt_or_eq_of_le (FVector.sizeSquared_nonneg (b - a)) with hlt | heq
  · exact hlt
  · exfalso
    apply h
    have h0 : (b - a).SizeSquared = 0 := heq.symm
    simp only [FVector.SizeSquared, FVector.sub_def] at h0
    have hx : (b.X - a.X) * (b.X - a.X) = 0 := by
      nlinarith [mul_self_nonneg (b.X - a.X), mul_self_nonneg (b.Y - a.Y),
        mul_self_nonneg (b.Z - a.Z)]
    have hy : (b.Y - a.Y) * (b.Y - a.Y) = 0 := by
      nlinarith [mul_self_nonneg (b.X - a.X), mul_self_nonneg (b.Y - a.Y),
        mul_self_nonneg (b.Z - a.Z)]
    have hz : (b.Z - a.Z) * (b.Z - a.Z) = 0 := by
      nlinarith [mul_self_nonneg (b.X - a.X), mul_self_nonneg (b.Y - a.Y),
        mul_self_nonneg (b.Z - a.Z)]
    rw [FVector.ext_iff3]
    refine ⟨?_, ?_, ?_⟩
    · have := mul_self_eq_zero.mp hx; linarith
    · have := mul_self_eq_zero.mp hy; linarith
    · have := mul_self_eq_zero.mp hz; linarith

/-- The squared size of a scaled vector. -/
theorem FVector.sizeSquared_scale (a : FVector F) (s : F) :
    (a.scale s).SizeSquared = s * s * a.SizeSquared := by
  simp only [FVector.SizeSquared, FVector.scale]
  ring

/-- A vector of positive squared size is normalised to a unit vector. -/
theorem FVector.sizeSquared_getUnsafeNormal (M : FMath F) (hM : M.Sound) (a : FVector F)
    (h : 0 < a.SizeSquared) : (a.GetUnsafeNormal M).SizeSquared = 1 := by
  rw [FVector.GetUnsafeNormal, FVector.sizeSquared_scale]
  exact hM.InvSqrt_sq _ h

/-- C11. Twist constraint setup frame. For an index `i ≥ 1` and working
transforms with distinct positions at `i - 1` (pivot) and `i` (neck), the
setup lambda of the torso twist constraint returns the working transforms as
they were (the reference transforms and the constraint array are read-only
arguments), keeps every field of the constraint other than `RotationAxis`, and
sets `RotationAxis` to the negation of the unit vector pointing from the
pivot position to the neck position. -/
theorem torso_twist_setup_frame {K : Type} (M : FMath F) (hM : M.Sound) (hR : M.SoundRoots)
    (c : FPlanarRotation F) (Index : Int) (ReferenceCSTransforms : List (FTransform F))
    (Constraints : List K) (CSTransforms : List (FTransform F)) (Pivot Neck : FTransform F)
    (_hIndex : 1 ≤ Index)
    (hPivot : TArrayGet? CSTransforms (Index - 1) = some Pivot)
    (hNeck : TArrayGet? CSTransforms Index = some Neck)
    (hne : Pivot.GetLocation ≠ Neck.GetLocation) :
    ∃ c' u, TorsoTwistSetupFn M c Index ReferenceCSTransforms Constraints CSTransforms
        = some (c', CSTransforms) ∧
      c'.ForwardDirection = c.ForwardDirection ∧
      c'.FailsafeDirection = c.FailsafeDirection ∧
      c'.MinDegrees = c.MinDegrees ∧ c'.MaxDegrees = c.MaxDegrees ∧
      c'.bEnabled = c.bEnabled ∧ c'.bEnableDebugDraw = c.bEnableDebugDraw ∧
      c'.SetupFn = c.SetupFn ∧
      c'.RotationAxis = -u ∧ u.SizeSquared = 1 ∧
      ∃ s, 0 < s ∧ u = (Neck.GetLocation - Pivot.GetLocation).scale s := by
  have hpos := FVector.sizeSquared_sub_pos _ _ hne
  refine ⟨{ c with RotationAxis :=
        ((Neck.GetLocation - Pivot.GetLocation).GetUnsafeNormal M).scale (-1) },
    (Neck.GetLocation - Pivot.GetLocation).GetUnsafeNormal M, ?_,
    rfl, rfl, rfl, rfl, rfl, rfl, rfl, ?_, ?_, ?_⟩
  · simp only [TorsoTwistSetupFn, hPivot, hNeck]
  · simp [FVector.scale, FVector.neg_def]
  · exact FVector.sizeSquared_getUnsafeNormal M hM _ hpos
  · exact ⟨_, hR.InvSqrt_pos _ hpos, rfl⟩

/-- Witness of `torso_twist_setup_frame`: over the reals, index 1 with the
pivot at `(0, 0, 1)` and the neck at `(0, 0, 2)`. -/
theorem torso_twist_setup_frame_witness :
    ∃ c' u, TorsoTwistSetupFn (⟨Real.sqrt, fun x => (Real.sqrt x)⁻¹, Real.tan, Real.arctan, Real.arccos,
        Real.sin, Real.cos, Real.pi⟩ : FMath ℝ) (planarEx : FPlanarRotation ℝ) 1 ([] : List (FTransform ℝ)) ([] : List Unit) [FTransform.ofTranslation ⟨0, 0, 1⟩, FTransform.ofTranslation ⟨0, 0, 2⟩]
        = some (c', [FTransform.ofTranslation ⟨0, 0, 1⟩, FTransform.ofTranslation ⟨0, 0, 2⟩]) ∧
      c'.ForwardDirection = (planarEx : FPlanarRotation ℝ).ForwardDirection ∧
      c'.FailsafeDirection = (planarEx : FPlanarRotation ℝ).FailsafeDirection ∧
      c'.MinDegrees = (planarEx : FPlanarRotation ℝ).MinDegrees ∧ c'.MaxDegrees = (planarEx : FPlanarRotation ℝ).MaxDegrees ∧
      c'.bEnabled = (planarEx : FPlanarRotation ℝ).bEnabled ∧ c'.bEnableDebugDraw = (planarEx : FPlanarRotation ℝ).bEnableDebugDraw ∧
      c'.SetupFn = (planarEx : FPlanarRotation ℝ).SetupFn ∧
      c'.RotationAxis = -u ∧ u.SizeSquared = 1 ∧
      ∃ s, 0 < s ∧ u = ((FTransform.ofTranslation ⟨0, 0, 2⟩ : FTransform ℝ).GetLocation - (FTransform.ofTranslation ⟨0, 0, 1⟩ : FTransform ℝ).GetLocation).scale s :=
  torso_twist_setup_frame _ realMath_sound realMath_soundRoots planarEx 1 [] []
    [FTransform.ofTranslation ⟨0, 0, 1⟩, FTransform.ofTranslation ⟨0, 0, 2⟩]
    (FTransform.ofTranslation ⟨0, 0, 1⟩) (FTransform.ofTranslation ⟨0, 0, 2⟩)
    (le_refl 1) (by simp [TArrayGet?]) (by simp [TArrayGet?])
    (by simp [FTransform.GetLocation, FTransform.ofTranslation])

end TwistSetupTheorems

section RotationTheorems

variable {F : Type} [LinearOrderedField F]

open FAnimNode_RangeLimitedFabrik

/-- When the cross product of the two directions is not near zero
(squared size at least `SMALL_NUMBER`), the delta rotation has squared size
one. -/
theorem delta_rotation_unit_of_nondegenerate (M : FMath F) (hM : M.Sound) (hR : M.SoundRoots)
    (OldDir NewDir : FVector F)
    (h : SMALL_NUMBER ≤ (FVector.CrossProduct OldDir NewDir).SizeSquared) :
    (DeltaRotation M OldDir NewDir).SizeSquared = 1 := by
  have hsmall : (0 : F) < SMALL_NUMBER := by unfold SMALL_NUMBER; positivity
  have haxis : ((FVector.CrossProduct OldDir NewDir).GetSafeNormal M).SizeSquared = 1 := by
    unfold FVector.GetSafeNormal
    simp only [FVector.SizeSquared] at h ⊢
    split_ifs with h1 h2
    · exact h1
    · exact absurd h2 (not_lt.mpr h)
    · have := hM.InvSqrt_sq _ (lt_of_lt_of_le hsmall h)
      simp only []
      linear_combination this
  have htrig := hR.Sin_sq_add_Cos_sq ((1 / 2) * M.Acos (FVector.DotProduct OldDir NewDir))
  simp only [DeltaRotation, FQuat.ofAxisAngle, FQuat.SizeSquared]
  simp only [FVector.SizeSquared] at haxis
  linear_combination
    (M.Sin ((1 / 2) * M.Acos (FVector.DotProduct OldDir NewDir)) *
      M.Sin ((1 / 2) * M.Acos (FVector.DotProduct OldDir NewDir))) * haxis + htrig

/-- C13, the code at a failing input. With the old direction `(1, 0, 0)` and
the new direction `(-1, 0, 0)` (anti-parallel unit vectors) the cross product
is zero, its safe normal is the zero vector, the angle is `π`, and the delta
rotation is the zero quaternion: it is not normalised, it leaves the old
direction where it was, the `checkSlow` fails where it is compiled in, and
where it is not the parent's rotation is normalised to the identity. -/
theorem update_parent_rotation_antiparallel :
    DeltaRotation (⟨Real.sqrt, fun x => (Real.sqrt x)⁻¹, Real.tan, Real.arctan, Real.arccos,
        Real.sin, Real.cos, Real.pi⟩ : FMath ℝ) ⟨1, 0, 0⟩ ⟨-1, 0, 0⟩ = ⟨0, 0, 0, 0⟩ ∧
    (⟨0, 0, 0, 0⟩ : FQuat ℝ).IsNormalized = false ∧
    FQuat.RotateVector (⟨0, 0, 0, 0⟩ : FQuat ℝ) ⟨1, 0, 0⟩ = ⟨1, 0, 0⟩ ∧
    UpdateParentRotation true (⟨Real.sqrt, fun x => (Real.sqrt x)⁻¹, Real.tan, Real.arctan, Real.arccos,
        Real.sin, Real.cos, Real.pi⟩ : FMath ℝ) poseEx
      (FTransform.ofTranslation ⟨0, 0, 0⟩) 0 (FTransform.ofTranslation ⟨-1, 0, 0⟩) 1 = none ∧
    UpdateParentRotation false (⟨Real.sqrt, fun x => (Real.sqrt x)⁻¹, Real.tan, Real.arctan, Real.arccos,
        Real.sin, Real.cos, Real.pi⟩ : FMath ℝ) poseEx
      (FTransform.ofTranslation ⟨0, 0, 0⟩) 0 (FTransform.ofTranslation ⟨-1, 0, 0⟩) 1
      = some (FTransform.ofTranslation ⟨0, 0, 0⟩) := by
  have hcos : Real.cos (1 / 2 * Real.pi) = 0 := by
    rw [show (1 / 2 : ℝ) * Real.pi = Real.pi / 2 by ring]
    exact Real.cos_pi_div_two
  have hD : DeltaRotation (⟨Real.sqrt, fun x => (Real.sqrt x)⁻¹, Real.tan, Real.arctan, Real.arccos,
        Real.sin, Real.cos, Real.pi⟩ : FMath ℝ) ⟨1, 0, 0⟩ ⟨-1, 0, 0⟩ = ⟨0, 0, 0, 0⟩ := by
    simp [DeltaRotation, FQuat.ofAxisAngle, FVector.GetSafeNormal, FVector.CrossProduct,
      FVector.DotProduct, FVector.ZeroVector, SMALL_NUMBER]
    simpa using hcos
  have hN : (⟨0, 0, 0, 0⟩ : FQuat ℝ).IsNormalized = false := by
    simp [FQuat.IsNormalized, FQuat.SizeSquared, THRESH_QUAT_NORMALIZED]
    norm_num
  have hOld : ((poseEx 1 : FTransform ℝ).GetLocation - (poseEx 0).GetLocation).GetUnsafeNormal
      (⟨Real.sqrt, fun x => (Real.sqrt x)⁻¹, Real.tan, Real.arctan, Real.arccos,
        Real.sin, Real.cos, Real.pi⟩ : FMath ℝ) = ⟨1, 0, 0⟩ := by
    simp [poseEx, FTransform.ofTranslation, FTransform.GetLocation, FVector.GetUnsafeNormal,
      FVector.SizeSquared, FVector.sub_def, FVector.scale]
  have hNew : ((FTransform.ofTranslation ⟨-1, 0, 0⟩ : FTransform ℝ).GetLocation -
      (FTransform.ofTranslation ⟨0, 0, 0⟩ : FTransform ℝ).GetLocation).GetUnsafeNormal
      (⟨Real.sqrt, fun x => (Real.sqrt x)⁻¹, Real.tan, Real.arctan, Real.arccos,
        Real.sin, Real.cos, Real.pi⟩ : FMath ℝ) = ⟨-1, 0, 0⟩ := by
    simp [FTransform.ofTranslation, FTransform.GetLocation, FVector.GetUnsafeNormal,
      FVector.SizeSquared, FVector.sub_def, FVector.scale]
  refine ⟨hD, hN, ?_, ?_, ?_⟩
  · simp [FQuat.RotateVector, FVector.CrossProduct, FVector.scale, FVector.add_def]
  · simp only [UpdateParentRotation, hOld, hNew, hD, hN]
    rfl
  · simp only [UpdateParentRotation, hOld, hNew, hD]
    simp [FTransform.SetRotation, FTransform.NormalizeRotation, FTransform.GetRotation,
      FTransform.ofTranslation, FQuat.mul, FQuat.Normalize, FQuat.Identity, poseEx,
      SMALL_NUMBER]

end RotationTheorems

section SolverTheorems

variable {F K : Type} [LinearOrderedField F]

open FRangeLimitedFABRIK

/-- The constraint operations without constraints meet the requirements:
there is no failsafe direction at all. -/
theorem unconstrainedOps_wellFormed :
    (unconstrainedOps : FIKConstraintOps F K).WellFormed where
  Degenerate_nonneg := le_refl _
  Failsafe_unit := fun _ _ h => by simp [unconstrainedOps] at h
  Setup_failsafe := fun _ _ _ _ _ => rfl

/-- A state that a backward and a forward pass give back is what the
iteration returns, whatever the number of iterations. -/
theorem iterate_fixpoint (M : FMath F) (P : FIKConstraintOps F K)
    (Reference : List (FTransform F)) (Lengths : List F) (RootLocation Target : FVector F)
    (Precision : F) (st : FABRIKState F K)
    (h : ForwardPass M P Reference Lengths RootLocation
      (BackwardPass M P Reference Lengths Target st) = st) :
    ∀ fuel, Iterate M P Reference Lengths RootLocation Target Precision fuel st = st
  | 0 => rfl
  | fuel + 1 => by
    rw [Iterate, h, iterate_fixpoint M P Reference Lengths RootLocation Target Precision st h fuel]
    exact ite_self _

/-- The modelled solver substituting the failsafe direction: the chain and
constraints of `solve_planar_scenario`, target `(1, 0, 1)`, precision `1/2`.
The target is straight above link `1`, so the constraint of the link placed
next to it collapses the proposed direction to the zero vector in either
pass, and the failsafe direction `X` is taken: every pair of passes gives the
links back where they were, at distance `√2 > 1/2` from the target, and the
ten iterations return the input positions. -/
theorem solve_failsafe_scenario :
    SolveRangeLimitedFABRIK (⟨Real.sqrt, fun x => (Real.sqrt x)⁻¹, Real.tan, Real.arctan, Real.arccos,
        Real.sin, Real.cos, Real.pi⟩ : FMath ℝ)
      (planarOps : FIKConstraintOps ℝ (Option Unit))
      ⟨[FTransform.ofTranslation ⟨0, 0, 0⟩, FTransform.ofTranslation ⟨1, 0, 0⟩,
        FTransform.ofTranslation ⟨2, 0, 0⟩],
       [none, some (), some ()], ⟨1, 0, 1⟩, 1 / 2, 10, some 0⟩
      = (true, [FTransform.ofTranslation ⟨0, 0, 0⟩, FTransform.ofTranslation ⟨1, 0, 0⟩,
        FTransform.ofTranslation ⟨2, 0, 0⟩]) := by
  have hLen : BoneLengths (⟨Real.sqrt, fun x => (Real.sqrt x)⁻¹, Real.tan, Real.arctan, Real.arccos,
        Real.sin, Real.cos, Real.pi⟩ : FMath ℝ)
      [FTransform.ofTranslation ⟨0, 0, 0⟩, FTransform.ofTranslation ⟨1, 0, 0⟩,
        FTransform.ofTranslation (⟨2, 0, 0⟩ : FVector ℝ)] = [1, 1] := by
    simp [BoneLengths, FVector.Size, FVector.SizeSquared, FVector.sub_def,
      FTransform.ofTranslation, FTransform.GetLocation]
    norm_num
  have h10 : ¬ (1 : ℝ) ≤ 0 := by norm_num
  have h40 : ¬ ((1 + 1) * (1 + 1) : ℝ) ≤ 0 := by norm_num
  have hs4 : Real.sqrt ((1 + 1) * (1 + 1)) = 1 + 1 := Real.sqrt_mul_self (by norm_num)
  have hPass : ForwardPass (⟨Real.sqrt, fun x => (Real.sqrt x)⁻¹, Real.tan, Real.arctan, Real.arccos,
        Real.sin, Real.cos, Real.pi⟩ : FMath ℝ)
      (planarOps : FIKConstraintOps ℝ (Option Unit))
      [FTransform.ofTranslation ⟨0, 0, 0⟩, FTransform.ofTranslation ⟨1, 0, 0⟩,
        FTransform.ofTranslation ⟨2, 0, 0⟩] [1, 1] ⟨0, 0, 0⟩
      (BackwardPass (⟨Real.sqrt, fun x => (Real.sqrt x)⁻¹, Real.tan, Real.arctan, Real.arccos,
        Real.sin, Real.cos, Real.pi⟩ : FMath ℝ)
        (planarOps : FIKConstraintOps ℝ (Option Unit))
        [FTransform.ofTranslation ⟨0, 0, 0⟩, FTransform.ofTranslation ⟨1, 0, 0⟩,
          FTransform.ofTranslation ⟨2, 0, 0⟩] [1, 1] ⟨1, 0, 1⟩
        ⟨[none, some (), some ()],
          [FTransform.ofTranslation ⟨0, 0, 0⟩, FTransform.ofTranslation ⟨1, 0, 0⟩,
            FTransform.ofTranslation ⟨2, 0, 0⟩]⟩) =
      ⟨[none, some (), some ()],
        [FTransform.ofTranslation ⟨0, 0, 0⟩, FTransform.ofTranslation ⟨1, 0, 0⟩,
          FTransform.ofTranslation ⟨2, 0, 0⟩]⟩ := by
    simp [BackwardPass, BackwardWalk, ForwardPass, ForwardWalk, PlaceLink, SetupLink,
      SegmentDirection, SetLocationAt, planarOps, FVector.SizeSquared, FVector.sub_def,
      FVector.add_def, FVector.scale, FVector.GetUnsafeNormal, FTransform.ofTranslation,
      FTransform.GetLocation, FTransform.SetLocation, h10, h40, hs4]
    norm_num
  have hloc : ∀ v : FVector ℝ, (FTransform.ofTranslation v).GetLocation = v := fun _ => rfl
  have hP0 : ¬ FVector.Size (⟨Real.sqrt, fun x => (Real.sqrt x)⁻¹, Real.tan, Real.arctan, Real.arccos,
        Real.sin, Real.cos, Real.pi⟩ : FMath ℝ)
      ((⟨2, 0, 0⟩ : FVector ℝ) - ⟨1, 0, 1⟩) ≤ 1 / 2 := by
    simp [FVector.Size, FVector.SizeSquared, FVector.sub_def]
    rw [Real.lt_sqrt (by norm_num)]
    norm_num
  have hReach : ¬ (1 + 1 : ℝ) ≤ FVector.Size (⟨Real.sqrt, fun x => (Real.sqrt x)⁻¹, Real.tan, Real.arctan, Real.arccos,
        Real.sin, Real.cos, Real.pi⟩ : FMath ℝ)
      ((⟨1, 0, 1⟩ : FVector ℝ) - ⟨0, 0, 0⟩) := by
    simp [FVector.Size, FVector.SizeSquared, FVector.sub_def]
    rw [Real.sqrt_lt' (by norm_num)]
    norm_num
  simp only [SolveRangeLimitedFABRIK, List.head?, List.getLast?, List.getLast, hloc, hLen,
    hP0, if_false, ge_iff_le, List.sum_cons, List.sum_nil, add_zero]
  rw [if_neg hReach, iterate_fixpoint _ _ _ _ _ _ _ _ hPass]
  simp [DeriveRotations, List.mapIdx, planarOps, FTransform.SetRotation,
    FTransform.ofTranslation]
  rfl

/-- The modelled solver on the unreachable scenario of the spec: a chain of
three segments of length 10 rooted at the origin (here pointing along `Y`)
and the target `(100, 0, 0)` give the links `(0, 0, 0)`, `(10, 0, 0)`,
`(20, 0, 0)`, `(30, 0, 0)`. -/
theorem solve_unreachable_scenario :
    (SolveRangeLimitedFABRIK (⟨Real.sqrt, fun x => (Real.sqrt x)⁻¹, Real.tan, Real.arctan, Real.arccos,
        Real.sin, Real.cos, Real.pi⟩ : FMath ℝ)
      (unconstrainedOps : FIKConstraintOps ℝ (Option Unit))
      ⟨[FTransform.ofTranslation ⟨0, 0, 0⟩, FTransform.ofTranslation ⟨0, 10, 0⟩,
        FTransform.ofTranslation ⟨0, 20, 0⟩, FTransform.ofTranslation ⟨0, 30, 0⟩],
       [none, none, none, none], ⟨100, 0, 0⟩, 1, 10, none⟩).2.map FTransform.GetLocation
      = [⟨0, 0, 0⟩, ⟨10, 0, 0⟩, ⟨20, 0, 0⟩, ⟨30, 0, 0⟩] := by
  have h100 : Real.sqrt 100 = 10 := by
    rw [show (100 : ℝ) = 10 * 10 by norm_num]
    exact Real.sqrt_mul_self (by norm_num)
  have h10000 : Real.sqrt 10000 = 100 := by
    rw [show (10000 : ℝ) = 100 * 100 by norm_num]
    exact Real.sqrt_mul_self (by norm_num)
  have hfar : ¬ Real.sqrt 10900 ≤ 1 := by
    rw [not_le, Real.lt_sqrt (by norm_num)]
    norm_num
  simp [SolveRangeLimitedFABRIK, BoneLengths, StraightenWalk, SetLocationAt, DeriveRotations,
    unconstrainedOps, FVector.Size, FVector.SizeSquared, FVector.sub_def, FVector.add_def,
    FVector.scale, FVector.GetUnsafeNormal, FTransform.ofTranslation, FTransform.GetLocation,
    FTransform.SetLocation, FTransform.SetRotation, List.mapIdx]
  norm_num [h100, h10000, hfar]
  rfl


end SolverTheorems

end RTIK
